import Mathlib

/-!
Verification of the freight-quote rate-determination engine.

The repository contains two parallel implementations of the fulfillment
service: the one under `src/api/fulfillment` (modelled in namespace `Named`,
whose boxes carry millimeters/grams) and an unnamed near-copy (namespace
`Unnamed`, whose boxes are used directly as inches/pounds).  JavaScript
numbers are modelled as exact rationals; the reference-data store's
`findMany({filters})` is modelled as exact-match filtering of an in-memory
table, and the external distance / rate collaborators as oracle functions.
-/

/-! ## JavaScript number helpers -/

/-- JS `Math.round`: round half toward positive infinity. -/
def jsRound (q : ℚ) : ℤ := ⌊q + 1/2⌋

/-- JS `x.toFixed(f)` re-read by `parseFloat`: round to `f` decimal places,
ties toward positive infinity (ECMA picks the larger candidate on a tie). -/
def jsToFixed (f : ℕ) (q : ℚ) : ℚ := (⌊q * (10 ^ f : ℚ) + 1/2⌋ : ℚ) / (10 ^ f : ℚ)

/-- JS `x % 1 === 0`: the number is integral. -/
def qIsInt (q : ℚ) : Prop := (⌊q⌋ : ℚ) = q

instance : DecidablePred qIsInt := fun q => inferInstanceAs (Decidable ((⌊q⌋ : ℚ) = q))

/-! ## JavaScript string helpers (on character lists, so they evaluate) -/

/-- Substring occurrence test on character lists. -/
def hasSub (needle : List Char) : List Char → Bool
  | [] => needle.isPrefixOf []
  | c :: rest => needle.isPrefixOf (c :: rest) || hasSub needle rest

/-- JS `s.includes(sub)`. -/
def jsIncludes (s sub : String) : Bool := hasSub sub.data s.data

/-- JS `s.startsWith(sub)`. -/
def jsStartsWith (s sub : String) : Bool := sub.data.isPrefixOf s.data

/-- JS `s.trim()`. -/
def jsTrim (s : String) : String :=
  String.mk (((s.data.dropWhile Char.isWhitespace).reverse.dropWhile Char.isWhitespace).reverse)

/-- Fuel-based scanner behind `jsSplit`: emits the chunk gathered in `cur`
whenever the separator occurs, consuming at least one character per step. -/
def splitSubAux (sep : List Char) : ℕ → List Char → List Char → List (List Char)
  | 0, rest, cur => [cur.reverse ++ rest]
  | _ + 1, [], cur => [cur.reverse]
  | fuel + 1, c :: rest, cur =>
    if sep.isPrefixOf (c :: rest) then
      cur.reverse :: splitSubAux sep fuel (List.drop sep.length (c :: rest)) []
    else
      splitSubAux sep fuel rest (c :: cur)

/-- JS `s.split(sep)` for a nonempty separator string. -/
def jsSplit (s sep : String) : List String :=
  (splitSubAux sep.data (s.data.length + 1) s.data []).map String.mk

/-- Numeric value of a list of decimal digit characters. -/
def digitsToNat (ds : List Char) : ℕ := ds.foldl (fun n c => 10 * n + (c.toNat - 48)) 0

/-- JS `parseFloat`: longest numeric prefix (optional sign, integer digits,
optional fractional digits; exponents are not modelled — no label in the
reference data uses them).  `none` models `NaN`, and every comparison against
`NaN` in the translated code is false. -/
def parseFloatQ (s : String) : Option ℚ :=
  let signAndRest : ℚ × List Char :=
    match s.data with
    | '-' :: t => (-1, t)
    | '+' :: t => (1, t)
    | t => (1, t)
  let intPart := signAndRest.2.span Char.isDigit
  let fracPart : List Char :=
    match intPart.2 with
    | '.' :: t => (t.span Char.isDigit).1
    | _ => []
  if intPart.1 = [] ∧ fracPart = [] then none
  else some (signAndRest.1 *
    ((digitsToNat intPart.1 : ℚ) + (digitsToNat fracPart : ℚ) / ((10 : ℚ) ^ fracPart.length)))

/-! ## Data model -/

/-- A row of the `freight-class-pricing` reference table. -/
structure PricingRow where
  freightClass : ℚ
  distance : String
  breakpointValue : Option ℚ
  price : ℚ
deriving DecidableEq

/-- A row of the `freight-calculation` (density band → class) reference table. -/
structure DensityClassRow where
  sub : ℤ
  densityRange : String
  assignedFreightClass : ℚ
deriving DecidableEq

/-- A warehouse record; an empty string models a missing (JS-falsy) text field. -/
structure Warehouse where
  documentId : ℤ
  name : String
  postalCode : String
  salesChannelId : String
deriving DecidableEq

/-- The discount-setting singleton record. -/
structure DiscountSetting where
  isDiscountEnabled : Bool
  discountPercentage : ℚ
deriving DecidableEq

/-- A box as the services receive it (all four numeric fields present). -/
structure Box where
  length : ℚ
  width : ℚ
  height : ℚ
  weight : ℚ
deriving DecidableEq

/-- A box as the controller receives it in the request body; `none` models an
absent field. -/
structure BoxInput where
  length : Option ℚ
  width : Option ℚ
  height : Option ℚ
  weight : Option ℚ
deriving DecidableEq

/-- Result of `findPriceAndRateByClassAndDistance`. -/
structure PricingResult where
  price : ℚ
  ratePerCwt : ℚ
deriving DecidableEq

/-! ## Freight classification (`findFreightClassByDensity`, identical in both services) -/

/-- The first split field of a `densityRange` label around `"but less than"`,
trimmed — `parts[0].trim()`. -/
def rangeMin (range : String) : Option ℚ :=
  parseFloatQ (jsTrim ((jsSplit range "but less than").getD 0 ""))

/-- The second split field of a `densityRange` label around `"but less than"`,
trimmed — `parts[1].trim()`. -/
def rangeMax (range : String) : Option ℚ :=
  parseFloatQ (jsTrim ((jsSplit range "but less than").getD 1 ""))

/-- The row test performed by the body of the classification loop: the literal
label `"Less than 1"` with density < 1, a `"… but less than …"` label with the
parsed bounds containing the density, or the literal label `"50 or greater"`
with density ≥ 50.  A comparison against an unparsable (`NaN`) bound is false. -/
def rowMatches (density : ℚ) (r : DensityClassRow) : Bool :=
  if r.densityRange = "Less than 1" ∧ density < 1 then true
  else if jsIncludes r.densityRange "but less than" then
    match rangeMin r.densityRange, rangeMax r.densityRange with
    | some mn, some mx => decide (mn ≤ density ∧ density < mx)
    | _, _ => false
  else decide (r.densityRange = "50 or greater" ∧ 50 ≤ density)

/-- The `for (const calc of sorted)` loop: class of the first matching row. -/
def classifyLoop (density : ℚ) : List DensityClassRow → Option ℚ
  | [] => none
  | r :: rs => if rowMatches density r then some r.assignedFreightClass else classifyLoop density rs

/-- Comparison used by `calculations.sort((a, b) => a.sub - b.sub)`. -/
def subLE (a b : DensityClassRow) : Prop := a.sub ≤ b.sub

instance : DecidableRel subLE := fun a b => inferInstanceAs (Decidable (a.sub ≤ b.sub))

instance : IsTotal DensityClassRow subLE := ⟨fun a b => le_total a.sub b.sub⟩

instance : IsTrans DensityClassRow subLE := ⟨fun _ _ _ => le_trans⟩

/-- `calculations.sort((a, b) => a.sub - b.sub)`. -/
def sortBySub (rows : List DensityClassRow) : List DensityClassRow :=
  List.insertionSort subLE rows

/-- `findFreightClassByDensity` of both fulfillment services (identical code):
walk the sub-sorted table, else fall back to the last row's class, where the
JS `|| null` turns a falsy (zero) fallback class into `null`. -/
def findFreightClassByDensity (table : List DensityClassRow) (density : ℚ) : Option ℚ :=
  let sorted := sortBySub table
  match classifyLoop density sorted with
  | some c => some c
  | none =>
    match sorted.getLast? with
    | some r => if r.assignedFreightClass = 0 then none else some r.assignedFreightClass
    | none => none

/-! ## Pricing lookup (`findPricingEntries` / inlined in the named service's
`findPriceAndRateByClassAndDistance` — the code is the same in both files) -/

/-- Breakpoint value of a row that passed the non-null filter. -/
def bpv (p : PricingRow) : ℚ := p.breakpointValue.getD 0

/-- Comparison used by `.sort((a, b) => a.breakpointValue - b.breakpointValue)`. -/
def bpLE (a b : PricingRow) : Prop := bpv a ≤ bpv b

instance : DecidableRel bpLE := fun a b => inferInstanceAs (Decidable (bpv a ≤ bpv b))

instance : IsTotal PricingRow bpLE := ⟨fun a b => le_total (bpv a) (bpv b)⟩

instance : IsTrans PricingRow bpLE := ⟨fun _ _ _ => le_trans⟩

/-- `pricings.filter(p => p.breakpointValue != null).sort(by breakpoint asc)`. -/
def sortedBreakpointRows (pricings : List PricingRow) : List PricingRow :=
  List.insertionSort bpLE (pricings.filter (fun p => p.breakpointValue.isSome))

/-- The indexed breakpoint walk: take `current` when
`weight >= current.breakpointValue && (!next || weight < next.breakpointValue)`. -/
def selectLoop (weight : ℚ) : List PricingRow → Option PricingRow
  | [] => none
  | [c] => if bpv c ≤ weight then some c else none
  | c :: n :: rest =>
    if bpv c ≤ weight ∧ weight < bpv n then some c else selectLoop weight (n :: rest)

/-- `selectPricingByWeight` (unnamed service) and the identical inline weight
selection of the named service: breakpoint walk, then the highest breakpoint
when the walk found nothing, then the catch-all row without a breakpoint
(`!p.breakpointValue`, which is also true of a zero breakpoint). -/
def selectPricingByWeight (pricings : List PricingRow) (weight : ℚ) : Option PricingRow :=
  let sorted := sortedBreakpointRows pricings
  match selectLoop weight sorted with
  | some p => some p
  | none =>
    match sorted.getLast? with
    | some p => some p
    | none => pricings.find? (fun p => decide (p.breakpointValue = none ∨ p.breakpointValue = some 0))

/-- Tier 1 of the pricing search: exact match on rounded class and band. -/
def tier1 (table : List PricingRow) (freightClassInt : ℚ) (distance : String) : List PricingRow :=
  table.filter (fun p => decide (p.freightClass = freightClassInt ∧ p.distance = distance))

/-- Tier 3 of the pricing search: all rows of the rounded class. -/
def tier3 (table : List PricingRow) (freightClassInt : ℚ) : List PricingRow :=
  table.filter (fun p => decide (p.freightClass = freightClassInt))

/-- Tier 2 of the pricing search: rows of the rounded class whose stored
distance equals the band, starts with the band's lower-bound token, or equals
that token (`distance.split('-')[0].trim()`). -/
def tier2 (table : List PricingRow) (freightClassInt : ℚ) (distance : String) : List PricingRow :=
  let rangeStart := jsTrim ((jsSplit distance "-").getD 0 "")
  (tier3 table freightClassInt).filter (fun p =>
    decide (p.distance = distance) || jsStartsWith p.distance rangeStart ||
      decide (p.distance = rangeStart))

/-- `findPricingEntries`: tier 1, then (only for a band containing `'-'`)
tier 2, then tier 3, each tried only when the previous tier was empty. -/
def findPricingEntries (table : List PricingRow) (freightClass : ℚ) (distance : String) :
    List PricingRow :=
  let freightClassInt : ℚ := (jsRound freightClass : ℚ)
  let exact := tier1 table freightClassInt distance
  if exact ≠ [] then exact
  else
    let ranged := if jsIncludes distance "-" then tier2 table freightClassInt distance else []
    if ranged ≠ [] then ranged else tier3 table freightClassInt

/-- `findPriceAndRateByClassAndDistance` (both services): tiered row search,
weight-tier selection, and `price = ratePerCwt * (weight / 100)`. -/
def findPriceAndRateByClassAndDistance (table : List PricingRow) (freightClass : ℚ)
    (distance : String) (weight : ℚ) : Option PricingResult :=
  let pricings := findPricingEntries table freightClass distance
  if pricings = [] then none
  else
    match selectPricingByWeight pricings weight with
    | none => none
    | some sel => some { price := sel.price * (weight / 100), ratePerCwt := sel.price }

/-! ## Quote structures and errors shared by both service copies -/

/-- The thrown errors of `calculateShippingForBoxes`, carrying the values the
messages interpolate. -/
inductive CalcError where
  | invalidBox
  | noFreightClass (density : ℚ)
  | noPricingData
  | unresolvablePrice (freightClass nearestClass distanceKm weight : ℚ) (range : String)
deriving DecidableEq

deriving instance DecidableEq for Except

/-- One element of the `boxes` array of the returned quote. -/
structure BoxQuote where
  weightLbs : ℚ
  cubicFeet : ℚ
  densityPcf : ℚ
  freightClass : ℚ
  distanceKm : ℚ
  rateSource : String
  ratePerCwt : ℚ
  currency : String
  price : ℚ
  lengthIn : ℚ
  widthIn : ℚ
  heightIn : ℚ
deriving DecidableEq

/-- The returned shipment quote. -/
structure ShipmentQuote where
  destinationPostalCode : String
  destinationCountry : String
  warehouseId : ℤ
  warehouseName : String
  warehousePostalCode : String
  distanceKm : ℚ
  boxes : List BoxQuote
  subtotal : ℚ
  discountPercent : ℚ
  total : ℚ
  currency : String
deriving DecidableEq

/-- `settings?.isDiscountEnabled && settings?.discountPercentage ? settings.discountPercentage : 0`. -/
def discountPercentOf (settings : Option DiscountSetting) : ℚ :=
  match settings with
  | some s => if s.isDiscountEnabled ∧ s.discountPercentage ≠ 0 then s.discountPercentage else 0
  | none => 0

/-- `[...new Set(allPricings.map(p => Number(p.freightClass)))].sort((a, b) => a - b)`:
the distinct freight classes of the whole table, ascending (deduplication order
is irrelevant after the numeric sort). -/
def availableClasses (table : List PricingRow) : List ℚ :=
  List.insertionSort (fun a b => a ≤ b) (table.map (fun p => p.freightClass)).dedup

/-- The quote record pushed for one processed box, paired with the unrounded
line price accumulated into the subtotal. -/
def mkBoxQuote (weightLbs cubicFeet density distanceKm : ℚ) (freightClassUsed : ℚ)
    (pr : PricingResult) (lengthIn widthIn heightIn : ℚ) : BoxQuote × ℚ :=
  ({ weightLbs := jsToFixed 2 weightLbs
   , cubicFeet := jsToFixed 14 cubicFeet
   , densityPcf := jsToFixed 14 density
   , freightClass := freightClassUsed
   , distanceKm := jsToFixed 3 distanceKm
   , rateSource := "STRAPI_TABLE"
   , ratePerCwt := jsToFixed 1 pr.ratePerCwt
   , currency := "CAD"
   , price := jsToFixed 2 pr.price
   , lengthIn := jsToFixed 2 lengthIn
   , widthIn := jsToFixed 2 widthIn
   , heightIn := jsToFixed 2 heightIn }, pr.price)

/-! ## The named service (`src/api/fulfillment/services/fulfillment.ts`):
boxes carry millimeters and grams and are converted before classification. -/

namespace Named

/-- `mmToInches(mm) = mm * 0.0393701`. -/
def mmToInches (mm : ℚ) : ℚ := mm * (393701 / 10000000 : ℚ)

/-- `gramsToPounds(g) = g * 0.00220462`. -/
def gramsToPounds (grams : ℚ) : ℚ := grams * (220462 / 100000000 : ℚ)

/-- `calculateCubicFeet` on millimeter dimensions. -/
def calculateCubicFeet (lengthMm widthMm heightMm : ℚ) : ℚ :=
  (mmToInches lengthMm * mmToInches widthMm * mmToInches heightMm) / 1728

/-- `calculateDensity` on millimeter/gram inputs; 0 when the weight is ≤ 0. -/
def calculateDensity (lengthMm widthMm heightMm weightGrams : ℚ) : ℚ :=
  if weightGrams ≤ 0 then 0
  else gramsToPounds weightGrams / calculateCubicFeet lengthMm widthMm heightMm

/-- `mapDistanceToRange` of the named service: a chain of `< bound` tests. -/
def mapDistanceToRange (distanceKm : ℚ) : String :=
  if distanceKm < 100 then "0-99km"
  else if distanceKm < 200 then "100-199km"
  else if distanceKm < 300 then "200-299km"
  else if distanceKm < 400 then "300-399km"
  else if distanceKm < 500 then "400-499km"
  else if distanceKm < 600 then "500-599km"
  else if distanceKm < 700 then "600-699km"
  else if distanceKm < 800 then "700-799km"
  else if distanceKm < 900 then "800-899km"
  else if distanceKm < 1000 then "900-999km"
  else "1000+km"

/-- One step of the named service's nearest-class loop, carrying
`(nearestClass, minDiff)` with `diff = Math.abs(calculatedFreightClass - availableClass)`. -/
def nearestStep (freightClass : ℚ) (acc : ℚ × ℚ) (availableClass : ℚ) : ℚ × ℚ :=
  if |freightClass - availableClass| < acc.2 then (availableClass, |freightClass - availableClass|)
  else acc

/-- The named service's nearest-class search: start from the first available
class and keep the first strict improver. -/
def nearestClass (freightClass : ℚ) (classes : List ℚ) (c0 : ℚ) : ℚ :=
  (classes.foldl (nearestStep freightClass) (c0, |freightClass - c0|)).1

/-- The per-box price fallback ladder of `calculateShippingForBoxes`: the
computed class, the rounded class when the computed class is fractional, then
the nearest available class in the whole table; returns the class actually
used together with the price, or the corresponding thrown error. -/
def resolvePrice (priceTable : List PricingRow) (calculatedFreightClass distanceKm : ℚ)
    (distanceRange : String) (weight : ℚ) : Except CalcError (ℚ × PricingResult) :=
  match findPriceAndRateByClassAndDistance priceTable calculatedFreightClass distanceRange weight with
  | some r => .ok (calculatedFreightClass, r)
  | none =>
    let afterRound : Option (ℚ × PricingResult) :=
      if ¬ qIsInt calculatedFreightClass then
        match findPriceAndRateByClassAndDistance priceTable
            ((jsRound calculatedFreightClass : ℤ) : ℚ) distanceRange weight with
        | some r => some (((jsRound calculatedFreightClass : ℤ) : ℚ), r)
        | none => none
      else none
    match afterRound with
    | some res => .ok res
    | none =>
      match availableClasses priceTable with
      | [] => .error .noPricingData
      | c0 :: rest =>
        let nc := nearestClass calculatedFreightClass (c0 :: rest) c0
        match findPriceAndRateByClassAndDistance priceTable nc distanceRange weight with
        | some r => .ok (nc, r)
        | none =>
          .error (.unresolvablePrice calculatedFreightClass nc distanceKm weight distanceRange)

/-- The body of the named service's per-box loop: validate (JS falsy test on
the raw fields), convert units, classify (`!calculatedFreightClass` also
rejects a zero class), resolve the price, build the quote row. -/
def processBox (classTable : List DensityClassRow) (priceTable : List PricingRow)
    (distanceKm : ℚ) (distanceRange : String) (box : Box) :
    Except CalcError (BoxQuote × ℚ) :=
  if box.length = 0 ∨ box.width = 0 ∨ box.height = 0 ∨ box.weight = 0 then .error .invalidBox
  else
    let lengthInches := mmToInches box.length
    let widthInches := mmToInches box.width
    let heightInches := mmToInches box.height
    let cubicFeet := calculateCubicFeet box.length box.width box.height
    let density := calculateDensity box.length box.width box.height box.weight
    let weightPounds := gramsToPounds box.weight
    match findFreightClassByDensity classTable density with
    | none => .error (.noFreightClass density)
    | some calculatedFreightClass =>
      if calculatedFreightClass = 0 then .error (.noFreightClass density)
      else
        match resolvePrice priceTable calculatedFreightClass distanceKm distanceRange weightPounds with
        | .error e => .error e
        | .ok (freightClassUsed, pr) =>
          .ok (mkBoxQuote weightPounds cubicFeet density distanceKm freightClassUsed pr
            lengthInches widthInches heightInches)

/-- The named service's box loop, accumulating quote rows and the unrounded
subtotal. -/
def processBoxes (classTable : List DensityClassRow) (priceTable : List PricingRow)
    (distanceKm : ℚ) (distanceRange : String) : List Box → Except CalcError (List BoxQuote × ℚ)
  | [] => .ok ([], 0)
  | b :: bs =>
    match processBox classTable priceTable distanceKm distanceRange b with
    | .error e => .error e
    | .ok (q, p) =>
      match processBoxes classTable priceTable distanceKm distanceRange bs with
      | .error e => .error e
      | .ok (qs, s) => .ok (q :: qs, p + s)

end Named

/-- The final quote assembly shared verbatim by both service copies: warehouse
lookup by origin postal code, discount application, 3-decimal output rounding. -/
def assembleQuote (warehouses : List Warehouse) (settings : Option DiscountSetting)
    (boxResult : Except CalcError (List BoxQuote × ℚ)) (distanceKm : ℚ)
    (originPostalCode destinationPostalCode destinationCountry : String) :
    Except CalcError ShipmentQuote :=
  let warehouse := (warehouses.filter (fun w => decide (w.postalCode = originPostalCode))).head?
  match boxResult with
  | .error e => .error e
  | .ok (boxResults, subtotal) =>
    let discountPercent := discountPercentOf settings
    let discountAmount := subtotal * (discountPercent / 100)
    let total := jsToFixed 3 (subtotal - discountAmount)
    .ok { destinationPostalCode := destinationPostalCode
        , destinationCountry := destinationCountry
        , warehouseId :=
            match warehouse with
            | some w => if w.documentId = 0 then 0 else w.documentId
            | none => 0
        , warehouseName :=
            match warehouse with
            | some w => if w.name = "" then "Unknown Warehouse" else w.name
            | none => "Unknown Warehouse"
        , warehousePostalCode := originPostalCode
        , distanceKm := jsToFixed 3 distanceKm
        , boxes := boxResults
        , subtotal := jsToFixed 3 subtotal
        , discountPercent := discountPercent
        , total := total
        , currency := "CAD" }

/-- `calculateShippingForBoxes` of the named service. -/
def Named.calculateShippingForBoxes (classTable : List DensityClassRow)
    (priceTable : List PricingRow) (warehouses : List Warehouse)
    (settings : Option DiscountSetting) (boxes : List Box) (distanceKm : ℚ)
    (distanceRange originPostalCode destinationPostalCode destinationCountry : String) :
    Except CalcError ShipmentQuote :=
  assembleQuote warehouses settings
    (Named.processBoxes classTable priceTable distanceKm distanceRange boxes)
    distanceKm originPostalCode destinationPostalCode destinationCountry

/-! ## The unnamed service copy: boxes are used directly as inches and pounds. -/

namespace Unnamed

/-- `calculateCubicFeet` on inch dimensions. -/
def calculateCubicFeet (lengthIn widthIn heightIn : ℚ) : ℚ :=
  (lengthIn * widthIn * heightIn) / 1728

/-- `calculateDensity` on inch/pound inputs; 0 when the weight is ≤ 0. -/
def calculateDensity (lengthIn widthIn heightIn weightLb : ℚ) : ℚ :=
  if weightLb ≤ 0 then 0 else weightLb / calculateCubicFeet lengthIn widthIn heightIn

/-- The `[min, max, range]` triples scanned by the unnamed service's
`mapDistanceToRange`; note the upper bound is the label number (99, 199, …). -/
def ranges : List (ℚ × ℚ × String) :=
  [ (0, 99, "0-99km"), (100, 199, "100-199km"), (200, 299, "200-299km")
  , (300, 399, "300-399km"), (400, 499, "400-499km"), (500, 599, "500-599km")
  , (600, 699, "600-699km"), (700, 799, "700-799km"), (800, 899, "800-899km")
  , (900, 999, "900-999km") ]

/-- `mapDistanceToRange` of the unnamed copy: first triple with
`min <= d && d < max`, else `"1000+km"`. -/
def mapDistanceToRange (distanceKm : ℚ) : String :=
  match ranges.find? (fun t => decide (t.1 ≤ distanceKm ∧ distanceKm < t.2.1)) with
  | some t => t.2.2
  | none => "1000+km"

/-- The unnamed service's nearest-class `reduce` step:
`Math.abs(current - freightClass) < Math.abs(nearest - freightClass) ? current : nearest`. -/
def nearestStep (freightClass nearest current : ℚ) : ℚ :=
  if |current - freightClass| < |nearest - freightClass| then current else nearest

/-- `availableClasses.reduce(..., availableClasses[0])`. -/
def nearestClass (freightClass : ℚ) (classes : List ℚ) (c0 : ℚ) : ℚ :=
  classes.foldl (nearestStep freightClass) c0

/-- The per-box price fallback ladder of the unnamed service's
`calculateShippingForBoxes` (same ladder as the named service, with the
`reduce`-style nearest-class search). -/
def resolvePrice (priceTable : List PricingRow) (freightClass distanceKm : ℚ)
    (distanceRange : String) (weight : ℚ) : Except CalcError (ℚ × PricingResult) :=
  match findPriceAndRateByClassAndDistance priceTable freightClass distanceRange weight with
  | some r => .ok (freightClass, r)
  | none =>
    let afterRound : Option (ℚ × PricingResult) :=
      if ¬ qIsInt freightClass then
        match findPriceAndRateByClassAndDistance priceTable
            ((jsRound freightClass : ℤ) : ℚ) distanceRange weight with
        | some r => some (((jsRound freightClass : ℤ) : ℚ), r)
        | none => none
      else none
    match afterRound with
    | some res => .ok res
    | none =>
      match availableClasses priceTable with
      | [] => .error .noPricingData
      | c0 :: rest =>
        let nc := nearestClass freightClass (c0 :: rest) c0
        match findPriceAndRateByClassAndDistance priceTable nc distanceRange weight with
        | some r => .ok (nc, r)
        | none => .error (.unresolvablePrice freightClass nc distanceKm weight distanceRange)

/-- The body of the unnamed service's per-box loop: the box fields are taken
as inches and pounds with no conversion. -/
def processBox (classTable : List DensityClassRow) (priceTable : List PricingRow)
    (distanceKm : ℚ) (distanceRange : String) (box : Box) :
    Except CalcError (BoxQuote × ℚ) :=
  if box.length = 0 ∨ box.width = 0 ∨ box.height = 0 ∨ box.weight = 0 then .error .invalidBox
  else
    let cubicFeet := calculateCubicFeet box.length box.width box.height
    let density := calculateDensity box.length box.width box.height box.weight
    match findFreightClassByDensity classTable density with
    | none => .error (.noFreightClass density)
    | some freightClass =>
      if freightClass = 0 then .error (.noFreightClass density)
      else
        match resolvePrice priceTable freightClass distanceKm distanceRange box.weight with
        | .error e => .error e
        | .ok (freightClassUsed, pr) =>
          .ok (mkBoxQuote box.weight cubicFeet density distanceKm freightClassUsed pr
            box.length box.width box.height)

/-- The unnamed service's box loop. -/
def processBoxes (classTable : List DensityClassRow) (priceTable : List PricingRow)
    (distanceKm : ℚ) (distanceRange : String) : List Box → Except CalcError (List BoxQuote × ℚ)
  | [] => .ok ([], 0)
  | b :: bs =>
    match processBox classTable priceTable distanceKm distanceRange b with
    | .error e => .error e
    | .ok (q, p) =>
      match processBoxes classTable priceTable distanceKm distanceRange bs with
      | .error e => .error e
      | .ok (qs, s) => .ok (q :: qs, p + s)

/-- `calculateShippingForBoxes` of the unnamed service copy. -/
def calculateShippingForBoxes (classTable : List DensityClassRow)
    (priceTable : List PricingRow) (warehouses : List Warehouse)
    (settings : Option DiscountSetting) (boxes : List Box) (distanceKm : ℚ)
    (distanceRange originPostalCode destinationPostalCode destinationCountry : String) :
    Except CalcError ShipmentQuote :=
  assembleQuote warehouses settings
    (processBoxes classTable priceTable distanceKm distanceRange boxes)
    distanceKm originPostalCode destinationPostalCode destinationCountry

end Unnamed

/-! ## Origin resolution (`getOriginPostalCode`).  The Google distance
collaborator is an oracle `calcDistance : origin address → destination
address → Option ℚ`, `none` modelling a thrown lookup error. -/

/-- One step of the closest-warehouse scan: skip a warehouse without a postal
code, skip one whose distance lookup throws, otherwise keep it when its
distance strictly improves the running minimum (`none` is `Infinity`). -/
def closestStep (calcDistance : String → Option ℚ) (acc : Warehouse × Option ℚ)
    (w : Warehouse) : Warehouse × Option ℚ :=
  if w.postalCode = "" then acc
  else
    match calcDistance w.postalCode with
    | none => acc
    | some d =>
      match acc.2 with
      | none => (w, some d)
      | some m => if d < m then (w, some d) else acc

/-- The closest-warehouse search shared by both services (`findClosestWarehouse`
in the unnamed copy, inlined in the named service): `none` only when the list
is empty, a single warehouse is returned outright, otherwise the scan starts
from `warehouses[0]` with an infinite running minimum. -/
def findClosestWarehouse (warehouses : List Warehouse)
    (calcDistance : String → String → Option ℚ) (destinationPostalCode : String) :
    Option Warehouse :=
  match warehouses with
  | [] => none
  | w0 :: rest =>
    if rest = [] then some w0
    else
      let destAddress := destinationPostalCode ++ " CA"
      some (warehouses.foldl
        (closestStep (fun pc => calcDistance (pc ++ " CA") destAddress)) (w0, none)).1

/-- Step 1 of `getOriginPostalCode` (identical in both services): an explicit
warehouse id (JS-truthy, so nonzero) is looked up and its postal code used
when present. -/
def originStep1 (warehouses : List Warehouse) (warehouseId : Option ℤ) : Option String :=
  match warehouseId with
  | some id =>
    if id = 0 then none
    else
      match warehouses.find? (fun w => decide (w.documentId = id)) with
      | some w => if w.postalCode = "" then none else some w.postalCode
      | none => none
  | none => none

namespace Named

/-- Step 2 of the named service: the first warehouse matching the sales
channel; its postal code is returned unconditionally. -/
def originStep2 (warehouses : List Warehouse) (salesChannelId : Option String) :
    Option String :=
  match salesChannelId with
  | some sc =>
    if sc = "" then none
    else
      match warehouses.filter (fun w => decide (w.salesChannelId = sc)) with
      | [] => none
      | w :: _ => some w.postalCode
  | none => none

/-- Step 3 of the named service: the closest-warehouse scan winner's postal
code, returned unconditionally whenever any warehouse exists. -/
def originStep3 (warehouses : List Warehouse)
    (calcDistance : String → String → Option ℚ)
    (destinationPostalCode : Option String) : Option String :=
  match destinationPostalCode with
  | some dest =>
    if dest = "" then none
    else
      match findClosestWarehouse warehouses calcDistance dest with
      | some w => some w.postalCode
      | none => none
  | none => none

/-- `getOriginPostalCode` of the named service.  `none` models the final
`No warehouses found` throw; JS truthiness makes a zero warehouse id and empty
strings skip their steps. -/
def getOriginPostalCode (warehouses : List Warehouse)
    (calcDistance : String → String → Option ℚ) (salesChannelId : Option String)
    (destinationPostalCode : Option String) (warehouseId : Option ℤ) : Option String :=
  match originStep1 warehouses warehouseId with
  | some pc => some pc
  | none =>
    match originStep2 warehouses salesChannelId with
    | some pc => some pc
    | none =>
      match originStep3 warehouses calcDistance destinationPostalCode with
      | some pc => some pc
      | none =>
        match warehouses with
        | w :: _ => some w.postalCode
        | [] => none

end Named

namespace Unnamed

/-- Step 2 of the unnamed copy: additionally requires the matched warehouse's
postal code to be truthy. -/
def originStep2 (warehouses : List Warehouse) (salesChannelId : Option String) :
    Option String :=
  match salesChannelId with
  | some sc =>
    if sc = "" then none
    else
      match warehouses.filter (fun w => decide (w.salesChannelId = sc)) with
      | [] => none
      | w :: _ => if w.postalCode = "" then none else some w.postalCode
  | none => none

/-- Step 3 of the unnamed copy: additionally requires the scan winner's postal
code to be truthy. -/
def originStep3 (warehouses : List Warehouse)
    (calcDistance : String → String → Option ℚ)
    (destinationPostalCode : Option String) : Option String :=
  match destinationPostalCode with
  | some dest =>
    if dest = "" then none
    else
      match findClosestWarehouse warehouses calcDistance dest with
      | some w => if w.postalCode = "" then none else some w.postalCode
      | none => none
  | none => none

/-- `getOriginPostalCode` of the unnamed copy.  Unlike the named service,
steps 2–4 also require a truthy postal code on the selected warehouse, and the
final throw therefore also fires when warehouses exist but the first one has
no postal code. -/
def getOriginPostalCode (warehouses : List Warehouse)
    (calcDistance : String → String → Option ℚ) (salesChannelId : Option String)
    (destinationPostalCode : Option String) (warehouseId : Option ℤ) : Option String :=
  match originStep1 warehouses warehouseId with
  | some pc => some pc
  | none =>
    match originStep2 warehouses salesChannelId with
    | some pc => some pc
    | none =>
      match originStep3 warehouses calcDistance destinationPostalCode with
      | some pc => some pc
      | none =>
        match warehouses with
        | w :: _ => if w.postalCode = "" then none else some w.postalCode
        | [] => none

end Unnamed

/-! ## The fulfillment controller -/

/-- Truthiness of an optional numeric request field: absent and zero are falsy. -/
def numFalsy (v : Option ℚ) : Prop := v = none ∨ v = some 0

instance : DecidablePred numFalsy := fun v =>
  inferInstanceAs (Decidable (v = none ∨ v = some 0))

/-- The controller's box-validation loop from index `i` (1-based, matching the
`Box ${i + 1} is missing required fields` message): index of the first box
with a falsy field. -/
def validateBoxesFrom (i : ℕ) : List BoxInput → Option ℕ
  | [] => none
  | b :: bs =>
    if numFalsy b.length ∨ numFalsy b.width ∨ numFalsy b.height ∨ numFalsy b.weight then some i
    else validateBoxesFrom (i + 1) bs

/-- The controller's box-validation loop over `cart.boxes`. -/
def validateBoxes (boxes : List BoxInput) : Option ℕ := validateBoxesFrom 1 boxes

/-- The response body shape of the controller; `boxes = none` in the external
(Medusa) branch, which carries no per-box breakdown. -/
structure ShippingResponse where
  destinationPostalCode : String
  destinationCountry : String
  warehouseId : ℤ
  warehouseName : String
  warehousePostalCode : String
  distanceKm : ℚ
  boxes : Option (List BoxQuote)
  subtotal : ℚ
  source : String
  discountPercent : ℚ
  total : ℚ
  currency : String
deriving DecidableEq

/-- The external price computation of the controller:
`Math.floor(cents * 1.15) / 100`, then the Medusa discount settings applied
with `Math.max(0, …)`; returns `(discountPercent, price)`. -/
def externalPrice (cents : ℚ) (medusaSettings : Option DiscountSetting) : ℚ × ℚ :=
  let p := ((⌊cents * (115 / 100 : ℚ)⌋ : ℤ) : ℚ) / 100
  match medusaSettings with
  | some s =>
    if s.isDiscountEnabled ∧ s.discountPercentage ≠ 0 then
      (s.discountPercentage, max 0 (p - p * (s.discountPercentage / 100)))
    else (0, p)
  | none => (0, p)

/-- The controller's response assembly: the whole external attempt is
abstracted into `externalCents`, which is `none` for every failure mode the
`catch` swallows (missing API key, no services, polling timeout, malformed
response) and `some cents` when a completed rate was obtained.  The local
(Strapi) result is computed either way; its error fails the request. -/
def respond (externalCents : Option ℚ) (medusaSettings : Option DiscountSetting)
    (strapiResult : Except CalcError ShipmentQuote) : Except CalcError ShippingResponse :=
  match strapiResult with
  | .error e => .error e
  | .ok q =>
    match externalCents with
    | some cents =>
      let dpAndPrice := externalPrice cents medusaSettings
      .ok { destinationPostalCode := q.destinationPostalCode
          , destinationCountry := q.destinationCountry
          , warehouseId := q.warehouseId
          , warehouseName := q.warehouseName
          , warehousePostalCode := q.warehousePostalCode
          , distanceKm := q.distanceKm
          , boxes := none
          , subtotal := jsToFixed 3 dpAndPrice.2
          , source := "MEDUSA_API"
          , discountPercent := dpAndPrice.1
          , total := jsToFixed 3 dpAndPrice.2
          , currency := "CAD" }
    | none =>
      .ok { destinationPostalCode := q.destinationPostalCode
          , destinationCountry := q.destinationCountry
          , warehouseId := q.warehouseId
          , warehouseName := q.warehouseName
          , warehousePostalCode := q.warehousePostalCode
          , distanceKm := q.distanceKm
          , boxes := some q.boxes
          , subtotal := q.subtotal
          , source := "STRAPI_TABLE"
          , discountPercent := q.discountPercent
          , total := q.total
          , currency := q.currency }

/-- The claim's reading of the label grammar: general `"Less than X"`,
`"A but less than B"`, `"X or greater"` with parsed numeric bounds.  This is
the comparison definition the refutation of C3 measures the code against. -/
def specRowMatches (density : ℚ) (r : DensityClassRow) : Bool :=
  if jsStartsWith r.densityRange "Less than " then
    match parseFloatQ (jsTrim (String.mk (r.densityRange.data.drop 10))) with
    | some x => decide (density < x)
    | none => false
  else if jsIncludes r.densityRange "but less than" then
    match rangeMin r.densityRange, rangeMax r.densityRange with
    | some mn, some mx => decide (mn ≤ density ∧ density < mx)
    | _, _ => false
  else if r.densityRange.data.reverse.take 11 = (" or greater" : String).data.reverse then
    match parseFloatQ (jsTrim (String.mk
        (r.densityRange.data.take (r.densityRange.data.length - 11)))) with
    | some x => decide (x ≤ density)
    | none => false
  else false

/-- First-matching-row classification under the claim's grammar reading. -/
def specClassify (table : List DensityClassRow) (density : ℚ) : Option ℚ :=
  match (sortBySub table).find? (specRowMatches density) with
  | some r => some r.assignedFreightClass
  | none => none

/-- The seed rows of the `freight-calculation` table (from the bootstrap
script), 92.5 written as 185/2. -/
def seedFreightCalculations : List DensityClassRow :=
  [ ⟨1, "Less than 1", 400⟩, ⟨2, "1 but less than 2", 300⟩, ⟨3, "2 but less than 4", 250⟩
  , ⟨4, "4 but less than 6", 175⟩, ⟨5, "6 but less than 8", 125⟩, ⟨6, "8 but less than 10", 100⟩
  , ⟨7, "10 but less than 12", 185/2⟩, ⟨8, "12 but less than 15", 85⟩
  , ⟨9, "15 but less than 22.5", 70⟩, ⟨10, "22.5 but less than 30", 65⟩
  , ⟨11, "30 but less than 35", 60⟩, ⟨12, "35 but less than 50", 55⟩
  , ⟨13, "50 or greater", 50⟩ ]

/-- The quote produced by the witness run of `discount_application_spec`:
one 12in cube of 100 lb at rate 100 per CWT, discount 10%. -/
def c6Quote : ShipmentQuote :=
  { destinationPostalCode := "B2B", destinationCountry := "CA", warehouseId := 0
  , warehouseName := "Unknown Warehouse", warehousePostalCode := "A1A"
  , distanceKm := 50
  , boxes := [{ weightLbs := 100, cubicFeet := 1, densityPcf := 100, freightClass := 50
              , distanceKm := 50, rateSource := "STRAPI_TABLE", ratePerCwt := 100
              , currency := "CAD", price := 100, lengthIn := 12, widthIn := 12
              , heightIn := 12 }]
  , subtotal := 100, discountPercent := 10, total := 90, currency := "CAD" }

/-- The quote the unnamed service computes for a box with negative weight. -/
def c9Quote : ShipmentQuote :=
  { destinationPostalCode := "B2B", destinationCountry := "CA", warehouseId := 0
  , warehouseName := "Unknown Warehouse", warehousePostalCode := "A1A"
  , distanceKm := 50
  , boxes := [{ weightLbs := -50, cubicFeet := 1, densityPcf := 0, freightClass := 50
              , distanceKm := 50, rateSource := "STRAPI_TABLE", ratePerCwt := 100
              , currency := "CAD", price := -50, lengthIn := 12, widthIn := 12
              , heightIn := 12 }]
  , subtotal := -50, discountPercent := 0, total := -50, currency := "CAD" }

/-- A minimal local quote used to witness the controller theorems. -/
def c8Quote : ShipmentQuote :=
  { destinationPostalCode := "B2B", destinationCountry := "CA", warehouseId := 7
  , warehouseName := "W", warehousePostalCode := "A1A", distanceKm := 50
  , boxes := [], subtotal := 0, discountPercent := 0, total := 0, currency := "CAD" }

/-- Unit conversion applied by the named service before classification and
pricing: dimensions mm → in, weight g → lb. -/
def convertBox (b : Box) : Box :=
  ⟨Named.mmToInches b.length, Named.mmToInches b.width, Named.mmToInches b.height,
    Named.gramsToPounds b.weight⟩

/-! ## C2: distance banding -/

/-- The ten 100 km-wide half-open distance buckets of the specification,
as (lower bound, label). -/
def specBuckets : List (ℚ × String) :=
  [ (0, "0-99km"), (100, "100-199km"), (200, "200-299km"), (300, "300-399km")
  , (400, "400-499km"), (500, "500-599km"), (600, "600-699km"), (700, "700-799km")
  , (800, "800-899km"), (900, "900-999km") ]

/-- Closed form of the unnamed copy's distance banding: the loop's `[min, max)`
tests in order, with the label number as the (excluded) upper bound. -/
theorem Unnamed.mapDistanceToRange_eq (d : ℚ) : Unnamed.mapDistanceToRange d =
    if 0 ≤ d ∧ d < 99 then "0-99km"
    else if 100 ≤ d ∧ d < 199 then "100-199km"
    else if 200 ≤ d ∧ d < 299 then "200-299km"
    else if 300 ≤ d ∧ d < 399 then "300-399km"
    else if 400 ≤ d ∧ d < 499 then "400-499km"
    else if 500 ≤ d ∧ d < 599 then "500-599km"
    else if 600 ≤ d ∧ d < 699 then "600-699km"
    else if 700 ≤ d ∧ d < 799 then "700-799km"
    else if 800 ≤ d ∧ d < 899 then "800-899km"
    else if 900 ≤ d ∧ d < 999 then "900-999km"
    else "1000+km" := by
  simp only [Unnamed.mapDistanceToRange, Unnamed.ranges]
  by_cases h1 : (0 : ℚ) ≤ d ∧ d < 99
  · rw [List.find?_cons_of_pos _ (by simpa using h1), if_pos h1]
  · rw [List.find?_cons_of_neg _ (by simpa using h1), if_neg h1]
    by_cases h2 : (100 : ℚ) ≤ d ∧ d < 199
    · rw [List.find?_cons_of_pos _ (by simpa using h2), if_pos h2]
    · rw [List.find?_cons_of_neg _ (by simpa using h2), if_neg h2]
      by_cases h3 : (200 : ℚ) ≤ d ∧ d < 299
      · rw [List.find?_cons_of_pos _ (by simpa using h3), if_pos h3]
      · rw [List.find?_cons_of_neg _ (by simpa using h3), if_neg h3]
        by_cases h4 : (300 : ℚ) ≤ d ∧ d < 399
        · rw [List.find?_cons_of_pos _ (by simpa using h4), if_pos h4]
        · rw [List.find?_cons_of_neg _ (by simpa using h4), if_neg h4]
          by_cases h5 : (400 : ℚ) ≤ d ∧ d < 499
          · rw [List.find?_cons_of_pos _ (by simpa using h5), if_pos h5]
          · rw [List.find?_cons_of_neg _ (by simpa using h5), if_neg h5]
            by_cases h6 : (500 : ℚ) ≤ d ∧ d < 599
            · rw [List.find?_cons_of_pos _ (by simpa using h6), if_pos h6]
            · rw [List.find?_cons_of_neg _ (by simpa using h6), if_neg h6]
              by_cases h7 : (600 : ℚ) ≤ d ∧ d < 699
              · rw [List.find?_cons_of_pos _ (by simpa using h7), if_pos h7]
              · rw [List.find?_cons_of_neg _ (by simpa using h7), if_neg h7]
                by_cases h8 : (700 : ℚ) ≤ d ∧ d < 799
                · rw [List.find?_cons_of_pos _ (by simpa using h8), if_pos h8]
                · rw [List.find?_cons_of_neg _ (by simpa using h8), if_neg h8]
                  by_cases h9 : (800 : ℚ) ≤ d ∧ d < 899
                  · rw [List.find?_cons_of_pos _ (by simpa using h9), if_pos h9]
                  · rw [List.find?_cons_of_neg _ (by simpa using h9), if_neg h9]
                    by_cases h10 : (900 : ℚ) ≤ d ∧ d < 999
                    · rw [List.find?_cons_of_pos _ (by simpa using h10), if_pos h10]
                    · rw [List.find?_cons_of_neg _ (by simpa using h10), if_neg h10]
                      rfl

/-- The named banding maps each spec bucket to its label. -/
theorem Named.mapDistanceToRange_bucket (d : ℚ) :
    ∀ p ∈ specBuckets, p.1 ≤ d → d < p.1 + 100 → Named.mapDistanceToRange d = p.2 := by
  intro p hp
  simp only [specBuckets, List.mem_cons, List.not_mem_nil, or_false] at hp
  rcases hp with rfl | rfl | rfl | rfl | rfl | rfl | rfl | rfl | rfl | rfl <;>
    (intro h1 h2; norm_num at h1 h2; simp only [Named.mapDistanceToRange])
  · rw [if_pos h2]
  · rw [if_neg (not_lt.2 (le_trans (by norm_num) h1)), if_pos h2]
  · rw [if_neg (not_lt.2 (le_trans (by norm_num) h1)), if_neg (not_lt.2 (le_trans (by norm_num) h1)), if_pos h2]
  · rw [if_neg (not_lt.2 (le_trans (by norm_num) h1)), if_neg (not_lt.2 (le_trans (by norm_num) h1)), if_neg (not_lt.2 (le_trans (by norm_num) h1)), if_pos h2]
  · rw [if_neg (not_lt.2 (le_trans (by norm_num) h1)), if_neg (not_lt.2 (le_trans (by norm_num) h1)), if_neg (not_lt.2 (le_trans (by norm_num) h1)), if_neg (not_lt.2 (le_trans (by norm_num) h1)), if_pos h2]
  · rw [if_neg (not_lt.2 (le_trans (by norm_num) h1)), if_neg (not_lt.2 (le_trans (by norm_num) h1)), if_neg (not_lt.2 (le_trans (by norm_num) h1)), if_neg (not_lt.2 (le_trans (by norm_num) h1)), if_neg (not_lt.2 (le_trans (by norm_num) h1)), if_pos h2]
  · rw [if_neg (not_lt.2 (le_trans (by norm_num) h1)), if_neg (not_lt.2 (le_trans (by norm_num) h1)), if_neg (not_lt.2 (le_trans (by norm_num) h1)), if_neg (not_lt.2 (le_trans (by norm_num) h1)), if_neg (not_lt.2 (le_trans (by norm_num) h1)), if_neg (not_lt.2 (le_trans (by norm_num) h1)), if_pos h2]
  · rw [if_neg (not_lt.2 (le_trans (by norm_num) h1)), if_neg (not_lt.2 (le_trans (by norm_num) h1)), if_neg (not_lt.2 (le_trans (by norm_num) h1)), if_neg (not_lt.2 (le_trans (by norm_num) h1)), if_neg (not_lt.2 (le_trans (by norm_num) h1)), if_neg (not_lt.2 (le_trans (by norm_num) h1)), if_neg (not_lt.2 (le_trans (by norm_num) h1)), if_pos h2]
  · rw [if_neg (not_lt.2 (le_trans (by norm_num) h1)), if_neg (not_lt.2 (le_trans (by norm_num) h1)), if_neg (not_lt.2 (le_trans (by norm_num) h1)), if_neg (not_lt.2 (le_trans (by norm_num) h1)), if_neg (not_lt.2 (le_trans (by norm_num) h1)), if_neg (not_lt.2 (le_trans (by norm_num) h1)), if_neg (not_lt.2 (le_trans (by norm_num) h1)), if_neg (not_lt.2 (le_trans (by norm_num) h1)), if_pos h2]
  · rw [if_neg (not_lt.2 (le_trans (by norm_num) h1)), if_neg (not_lt.2 (le_trans (by norm_num) h1)), if_neg (not_lt.2 (le_trans (by norm_num) h1)), if_neg (not_lt.2 (le_trans (by norm_num) h1)), if_neg (not_lt.2 (le_trans (by norm_num) h1)), if_neg (not_lt.2 (le_trans (by norm_num) h1)), if_neg (not_lt.2 (le_trans (by norm_num) h1)), if_neg (not_lt.2 (le_trans (by norm_num) h1)), if_neg (not_lt.2 (le_trans (by norm_num) h1)), if_pos h2]

/-- The named banding answers the open-ended bucket exactly on `d ≥ 1000`. -/
theorem Named.mapDistanceToRange_top_iff (d : ℚ) :
    Named.mapDistanceToRange d = "1000+km" ↔ 1000 ≤ d := by
  simp only [Named.mapDistanceToRange]
  split_ifs <;> first
    | exact iff_of_false (by decide) (by intro h; linarith)
    | exact iff_of_true rfl (by linarith)

/-- Below 1000 km the named banding lands in a bucket whose bounds contain `d`. -/
theorem Named.mapDistanceToRange_covers (d : ℚ) (h0 : 0 ≤ d) (hd : d < 1000) :
    ∃ p ∈ specBuckets, Named.mapDistanceToRange d = p.2 ∧ p.1 ≤ d ∧ d < p.1 + 100 := by
  simp only [Named.mapDistanceToRange]
  split_ifs with h1 h2 h3 h4 h5 h6 h7 h8 h9
  · exact ⟨(0, "0-99km"), by decide, rfl, h0, by dsimp only; linarith⟩
  · exact ⟨(100, "100-199km"), by decide, rfl, not_lt.1 h1, by dsimp only; linarith⟩
  · exact ⟨(200, "200-299km"), by decide, rfl, not_lt.1 h2, by dsimp only; linarith⟩
  · exact ⟨(300, "300-399km"), by decide, rfl, not_lt.1 h3, by dsimp only; linarith⟩
  · exact ⟨(400, "400-499km"), by decide, rfl, not_lt.1 h4, by dsimp only; linarith⟩
  · exact ⟨(500, "500-599km"), by decide, rfl, not_lt.1 h5, by dsimp only; linarith⟩
  · exact ⟨(600, "600-699km"), by decide, rfl, not_lt.1 h6, by dsimp only; linarith⟩
  · exact ⟨(700, "700-799km"), by decide, rfl, not_lt.1 h7, by dsimp only; linarith⟩
  · exact ⟨(800, "800-899km"), by decide, rfl, not_lt.1 h8, by dsimp only; linarith⟩
  · exact ⟨(900, "900-999km"), by decide, rfl, not_lt.1 h9, by dsimp only; linarith⟩

/-- The unnamed copy maps only `[lo, lo + 99)` of each bucket to its label. -/
theorem Unnamed.mapDistanceToRange_bucket99 (d : ℚ) :
    ∀ p ∈ specBuckets, p.1 ≤ d → d < p.1 + 99 → Unnamed.mapDistanceToRange d = p.2 := by
  intro p hp
  simp only [specBuckets, List.mem_cons, List.not_mem_nil, or_false] at hp
  rcases hp with rfl | rfl | rfl | rfl | rfl | rfl | rfl | rfl | rfl | rfl <;>
    (intro h1 h2; norm_num at h1 h2; rw [Unnamed.mapDistanceToRange_eq])
  · rw [if_pos ⟨h1, h2⟩]
  · rw [if_neg (fun hc => absurd (lt_of_lt_of_le hc.2 (by norm_num)) (not_lt.2 h1)), if_pos ⟨h1, h2⟩]
  · rw [if_neg (fun hc => absurd (lt_of_lt_of_le hc.2 (by norm_num)) (not_lt.2 h1)), if_neg (fun hc => absurd (lt_of_lt_of_le hc.2 (by norm_num)) (not_lt.2 h1)), if_pos ⟨h1, h2⟩]
  · rw [if_neg (fun hc => absurd (lt_of_lt_of_le hc.2 (by norm_num)) (not_lt.2 h1)), if_neg (fun hc => absurd (lt_of_lt_of_le hc.2 (by norm_num)) (not_lt.2 h1)), if_neg (fun hc => absurd (lt_of_lt_of_le hc.2 (by norm_num)) (not_lt.2 h1)), if_pos ⟨h1, h2⟩]
  · rw [if_neg (fun hc => absurd (lt_of_lt_of_le hc.2 (by norm_num)) (not_lt.2 h1)), if_neg (fun hc => absurd (lt_of_lt_of_le hc.2 (by norm_num)) (not_lt.2 h1)), if_neg (fun hc => absurd (lt_of_lt_of_le hc.2 (by norm_num)) (not_lt.2 h1)), if_neg (fun hc => absurd (lt_of_lt_of_le hc.2 (by norm_num)) (not_lt.2 h1)), if_pos ⟨h1, h2⟩]
  · rw [if_neg (fun hc => absurd (lt_of_lt_of_le hc.2 (by norm_num)) (not_lt.2 h1)), if_neg (fun hc => absurd (lt_of_lt_of_le hc.2 (by norm_num)) (not_lt.2 h1)), if_neg (fun hc => absurd (lt_of_lt_of_le hc.2 (by norm_num)) (not_lt.2 h1)), if_neg (fun hc => absurd (lt_of_lt_of_le hc.2 (by norm_num)) (not_lt.2 h1)), if_neg (fun hc => absurd (lt_of_lt_of_le hc.2 (by norm_num)) (not_lt.2 h1)), if_pos ⟨h1, h2⟩]
  · rw [if_neg (fun hc => absurd (lt_of_lt_of_le hc.2 (by norm_num)) (not_lt.2 h1)), if_neg (fun hc => absurd (lt_of_lt_of_le hc.2 (by norm_num)) (not_lt.2 h1)), if_neg (fun hc => absurd (lt_of_lt_of_le hc.2 (by norm_num)) (not_lt.2 h1)), if_neg (fun hc => absurd (lt_of_lt_of_le hc.2 (by norm_num)) (not_lt.2 h1)), if_neg (fun hc => absurd (lt_of_lt_of_le hc.2 (by norm_num)) (not_lt.2 h1)), if_neg (fun hc => absurd (lt_of_lt_of_le hc.2 (by norm_num)) (not_lt.2 h1)), if_pos ⟨h1, h2⟩]
  · rw [if_neg (fun hc => absurd (lt_of_lt_of_le hc.2 (by norm_num)) (not_lt.2 h1)), if_neg (fun hc => absurd (lt_of_lt_of_le hc.2 (by norm_num)) (not_lt.2 h1)), if_neg (fun hc => absurd (lt_of_lt_of_le hc.2 (by norm_num)) (not_lt.2 h1)), if_neg (fun hc => absurd (lt_of_lt_of_le hc.2 (by norm_num)) (not_lt.2 h1)), if_neg (fun hc => absurd (lt_of_lt_of_le hc.2 (by norm_num)) (not_lt.2 h1)), if_neg (fun hc => absurd (lt_of_lt_of_le hc.2 (by norm_num)) (not_lt.2 h1)), if_neg (fun hc => absurd (lt_of_lt_of_le hc.2 (by norm_num)) (not_lt.2 h1)), if_pos ⟨h1, h2⟩]
  · rw [if_neg (fun hc => absurd (lt_of_lt_of_le hc.2 (by norm_num)) (not_lt.2 h1)), if_neg (fun hc => absurd (lt_of_lt_of_le hc.2 (by norm_num)) (not_lt.2 h1)), if_neg (fun hc => absurd (lt_of_lt_of_le hc.2 (by norm_num)) (not_lt.2 h1)), if_neg (fun hc => absurd (lt_of_lt_of_le hc.2 (by norm_num)) (not_lt.2 h1)), if_neg (fun hc => absurd (lt_of_lt_of_le hc.2 (by norm_num)) (not_lt.2 h1)), if_neg (fun hc => absurd (lt_of_lt_of_le hc.2 (by norm_num)) (not_lt.2 h1)), if_neg (fun hc => absurd (lt_of_lt_of_le hc.2 (by norm_num)) (not_lt.2 h1)), if_neg (fun hc => absurd (lt_of_lt_of_le hc.2 (by norm_num)) (not_lt.2 h1)), if_pos ⟨h1, h2⟩]
  · rw [if_neg (fun hc => absurd (lt_of_lt_of_le hc.2 (by norm_num)) (not_lt.2 h1)), if_neg (fun hc => absurd (lt_of_lt_of_le hc.2 (by norm_num)) (not_lt.2 h1)), if_neg (fun hc => absurd (lt_of_lt_of_le hc.2 (by norm_num)) (not_lt.2 h1)), if_neg (fun hc => absurd (lt_of_lt_of_le hc.2 (by norm_num)) (not_lt.2 h1)), if_neg (fun hc => absurd (lt_of_lt_of_le hc.2 (by norm_num)) (not_lt.2 h1)), if_neg (fun hc => absurd (lt_of_lt_of_le hc.2 (by norm_num)) (not_lt.2 h1)), if_neg (fun hc => absurd (lt_of_lt_of_le hc.2 (by norm_num)) (not_lt.2 h1)), if_neg (fun hc => absurd (lt_of_lt_of_le hc.2 (by norm_num)) (not_lt.2 h1)), if_neg (fun hc => absurd (lt_of_lt_of_le hc.2 (by norm_num)) (not_lt.2 h1)), if_pos ⟨h1, h2⟩]

/-- The unnamed copy answers the open-ended bucket on `d ≥ 1000` and also on
each of the ten 1 km gaps `[lo + 99, lo + 100)` its loop leaves uncovered. -/
theorem Unnamed.mapDistanceToRange_top_iff_gaps (d : ℚ) (h0 : 0 ≤ d) :
    Unnamed.mapDistanceToRange d = "1000+km" ↔
      (1000 ≤ d ∨ ∃ p ∈ specBuckets, p.1 + 99 ≤ d ∧ d < p.1 + 100) := by
  constructor
  · intro hL
    by_contra hR
    push_neg at hR
    obtain ⟨hlt, hng⟩ := hR
    rcases lt_or_le d 100 with g1 | g1
    · rcases lt_or_le d 99 with gg | gg
      · exact absurd ((Unnamed.mapDistanceToRange_bucket99 d (0, "0-99km") (by decide) (by norm_num; exact h0) (by norm_num; exact gg)).symm.trans hL) (by decide)
      · have hcon := hng (0, "0-99km") (by decide) (by norm_num; exact gg)
        norm_num at hcon
        exact absurd g1 (not_lt.2 hcon)
    rcases lt_or_le d 200 with g2 | g2
    · rcases lt_or_le d 199 with gg | gg
      · exact absurd ((Unnamed.mapDistanceToRange_bucket99 d (100, "100-199km") (by decide) (by norm_num; exact g1) (by norm_num; exact gg)).symm.trans hL) (by decide)
      · have hcon := hng (100, "100-199km") (by decide) (by norm_num; exact gg)
        norm_num at hcon
        exact absurd g2 (not_lt.2 hcon)
    rcases lt_or_le d 300 with g3 | g3
    · rcases lt_or_le d 299 with gg | gg
      · exact absurd ((Unnamed.mapDistanceToRange_bucket99 d (200, "200-299km") (by decide) (by norm_num; exact g2) (by norm_num; exact gg)).symm.trans hL) (by decide)
      · have hcon := hng (200, "200-299km") (by decide) (by norm_num; exact gg)
        norm_num at hcon
        exact absurd g3 (not_lt.2 hcon)
    rcases lt_or_le d 400 with g4 | g4
    · rcases lt_or_le d 399 with gg | gg
      · exact absurd ((Unnamed.mapDistanceToRange_bucket99 d (300, "300-399km") (by decide) (by norm_num; exact g3) (by norm_num; exact gg)).symm.trans hL) (by decide)
      · have hcon := hng (300, "300-399km") (by decide) (by norm_num; exact gg)
        norm_num at hcon
        exact absurd g4 (not_lt.2 hcon)
    rcases lt_or_le d 500 with g5 | g5
    · rcases lt_or_le d 499 with gg | gg
      · exact absurd ((Unnamed.mapDistanceToRange_bucket99 d (400, "400-499km") (by decide) (by norm_num; exact g4) (by norm_num; exact gg)).symm.trans hL) (by decide)
      · have hcon := hng (400, "400-499km") (by decide) (by norm_num; exact gg)
        norm_num at hcon
        exact absurd g5 (not_lt.2 hcon)
    rcases lt_or_le d 600 with g6 | g6
    · rcases lt_or_le d 599 with gg | gg
      · exact absurd ((Unnamed.mapDistanceToRange_bucket99 d (500, "500-599km") (by decide) (by norm_num; exact g5) (by norm_num; exact gg)).symm.trans hL) (by decide)
      · have hcon := hng (500, "500-599km") (by decide) (by norm_num; exact gg)
        norm_num at hcon
        exact absurd g6 (not_lt.2 hcon)
    rcases lt_or_le d 700 with g7 | g7
    · rcases lt_or_le d 699 with gg | gg
      · exact absurd ((Unnamed.mapDistanceToRange_bucket99 d (600, "600-699km") (by decide) (by norm_num; exact g6) (by norm_num; exact gg)).symm.trans hL) (by decide)
      · have hcon := hng (600, "600-699km") (by decide) (by norm_num; exact gg)
        norm_num at hcon
        exact absurd g7 (not_lt.2 hcon)
    rcases lt_or_le d 800 with g8 | g8
    · rcases lt_or_le d 799 with gg | gg
      · exact absurd ((Unnamed.mapDistanceToRange_bucket99 d (700, "700-799km") (by decide) (by norm_num; exact g7) (by norm_num; exact gg)).symm.trans hL) (by decide)
      · have hcon := hng (700, "700-799km") (by decide) (by norm_num; exact gg)
        norm_num at hcon
        exact absurd g8 (not_lt.2 hcon)
    rcases lt_or_le d 900 with g9 | g9
    · rcases lt_or_le d 899 with gg | gg
      · exact absurd ((Unnamed.mapDistanceToRange_bucket99 d (800, "800-899km") (by decide) (by norm_num; exact g8) (by norm_num; exact gg)).symm.trans hL) (by decide)
      · have hcon := hng (800, "800-899km") (by decide) (by norm_num; exact gg)
        norm_num at hcon
        exact absurd g9 (not_lt.2 hcon)
    rcases lt_or_le d 1000 with g10 | g10
    · rcases lt_or_le d 999 with gg | gg
      · exact absurd ((Unnamed.mapDistanceToRange_bucket99 d (900, "900-999km") (by decide) (by norm_num; exact g9) (by norm_num; exact gg)).symm.trans hL) (by decide)
      · have hcon := hng (900, "900-999km") (by decide) (by norm_num; exact gg)
        norm_num at hcon
        exact absurd g10 (not_lt.2 hcon)
    exact absurd hlt (not_lt.2 (by linarith))
  · rintro (hge | ⟨p, hp, hpa, hpb⟩)
    · rw [Unnamed.mapDistanceToRange_eq]
      rw [if_neg (fun hc => absurd hc.2 (not_lt.2 (le_trans (by norm_num) hge))), if_neg (fun hc => absurd hc.2 (not_lt.2 (le_trans (by norm_num) hge))), if_neg (fun hc => absurd hc.2 (not_lt.2 (le_trans (by norm_num) hge))), if_neg (fun hc => absurd hc.2 (not_lt.2 (le_trans (by norm_num) hge))), if_neg (fun hc => absurd hc.2 (not_lt.2 (le_trans (by norm_num) hge))), if_neg (fun hc => absurd hc.2 (not_lt.2 (le_trans (by norm_num) hge))), if_neg (fun hc => absurd hc.2 (not_lt.2 (le_trans (by norm_num) hge))), if_neg (fun hc => absurd hc.2 (not_lt.2 (le_trans (by norm_num) hge))), if_neg (fun hc => absurd hc.2 (not_lt.2 (le_trans (by norm_num) hge))), if_neg (fun hc => absurd hc.2 (not_lt.2 (le_trans (by norm_num) hge)))]
    · simp only [specBuckets, List.mem_cons, List.not_mem_nil, or_false] at hp
      rcases hp with rfl | rfl | rfl | rfl | rfl | rfl | rfl | rfl | rfl | rfl <;>
        (norm_num at hpa hpb; rw [Unnamed.mapDistanceToRange_eq])
      · rw [if_neg (fun hc => absurd hc.2 (not_lt.2 (le_trans (by norm_num) hpa))), if_neg (fun hc => absurd hc.1 (not_le.2 (lt_of_lt_of_le hpb (by norm_num)))), if_neg (fun hc => absurd hc.1 (not_le.2 (lt_of_lt_of_le hpb (by norm_num)))), if_neg (fun hc => absurd hc.1 (not_le.2 (lt_of_lt_of_le hpb (by norm_num)))), if_neg (fun hc => absurd hc.1 (not_le.2 (lt_of_lt_of_le hpb (by norm_num)))), if_neg (fun hc => absurd hc.1 (not_le.2 (lt_of_lt_of_le hpb (by norm_num)))), if_neg (fun hc => absurd hc.1 (not_le.2 (lt_of_lt_of_le hpb (by norm_num)))), if_neg (fun hc => absurd hc.1 (not_le.2 (lt_of_lt_of_le hpb (by norm_num)))), if_neg (fun hc => absurd hc.1 (not_le.2 (lt_of_lt_of_le hpb (by norm_num)))), if_neg (fun hc => absurd hc.1 (not_le.2 (lt_of_lt_of_le hpb (by norm_num))))]
      · rw [if_neg (fun hc => absurd hc.2 (not_lt.2 (le_trans (by norm_num) hpa))), if_neg (fun hc => absurd hc.2 (not_lt.2 (le_trans (by norm_num) hpa))), if_neg (fun hc => absurd hc.1 (not_le.2 (lt_of_lt_of_le hpb (by norm_num)))), if_neg (fun hc => absurd hc.1 (not_le.2 (lt_of_lt_of_le hpb (by norm_num)))), if_neg (fun hc => absurd hc.1 (not_le.2 (lt_of_lt_of_le hpb (by norm_num)))), if_neg (fun hc => absurd hc.1 (not_le.2 (lt_of_lt_of_le hpb (by norm_num)))), if_neg (fun hc => absurd hc.1 (not_le.2 (lt_of_lt_of_le hpb (by norm_num)))), if_neg (fun hc => absurd hc.1 (not_le.2 (lt_of_lt_of_le hpb (by norm_num)))), if_neg (fun hc => absurd hc.1 (not_le.2 (lt_of_lt_of_le hpb (by norm_num)))), if_neg (fun hc => absurd hc.1 (not_le.2 (lt_of_lt_of_le hpb (by norm_num))))]
      · rw [if_neg (fun hc => absurd hc.2 (not_lt.2 (le_trans (by norm_num) hpa))), if_neg (fun hc => absurd hc.2 (not_lt.2 (le_trans (by norm_num) hpa))), if_neg (fun hc => absurd hc.2 (not_lt.2 (le_trans (by norm_num) hpa))), if_neg (fun hc => absurd hc.1 (not_le.2 (lt_of_lt_of_le hpb (by norm_num)))), if_neg (fun hc => absurd hc.1 (not_le.2 (lt_of_lt_of_le hpb (by norm_num)))), if_neg (fun hc => absurd hc.1 (not_le.2 (lt_of_lt_of_le hpb (by norm_num)))), if_neg (fun hc => absurd hc.1 (not_le.2 (lt_of_lt_of_le hpb (by norm_num)))), if_neg (fun hc => absurd hc.1 (not_le.2 (lt_of_lt_of_le hpb (by norm_num)))), if_neg (fun hc => absurd hc.1 (not_le.2 (lt_of_lt_of_le hpb (by norm_num)))), if_neg (fun hc => absurd hc.1 (not_le.2 (lt_of_lt_of_le hpb (by norm_num))))]
      · rw [if_neg (fun hc => absurd hc.2 (not_lt.2 (le_trans (by norm_num) hpa))), if_neg (fun hc => absurd hc.2 (not_lt.2 (le_trans (by norm_num) hpa))), if_neg (fun hc => absurd hc.2 (not_lt.2 (le_trans (by norm_num) hpa))), if_neg (fun hc => absurd hc.2 (not_lt.2 (le_trans (by norm_num) hpa))), if_neg (fun hc => absurd hc.1 (not_le.2 (lt_of_lt_of_le hpb (by norm_num)))), if_neg (fun hc => absurd hc.1 (not_le.2 (lt_of_lt_of_le hpb (by norm_num)))), if_neg (fun hc => absurd hc.1 (not_le.2 (lt_of_lt_of_le hpb (by norm_num)))), if_neg (fun hc => absurd hc.1 (not_le.2 (lt_of_lt_of_le hpb (by norm_num)))), if_neg (fun hc => absurd hc.1 (not_le.2 (lt_of_lt_of_le hpb (by norm_num)))), if_neg (fun hc => absurd hc.1 (not_le.2 (lt_of_lt_of_le hpb (by norm_num))))]
      · rw [if_neg (fun hc => absurd hc.2 (not_lt.2 (le_trans (by norm_num) hpa))), if_neg (fun hc => absurd hc.2 (not_lt.2 (le_trans (by norm_num) hpa))), if_neg (fun hc => absurd hc.2 (not_lt.2 (le_trans (by norm_num) hpa))), if_neg (fun hc => absurd hc.2 (not_lt.2 (le_trans (by norm_num) hpa))), if_neg (fun hc => absurd hc.2 (not_lt.2 (le_trans (by norm_num) hpa))), if_neg (fun hc => absurd hc.1 (not_le.2 (lt_of_lt_of_le hpb (by norm_num)))), if_neg (fun hc => absurd hc.1 (not_le.2 (lt_of_lt_of_le hpb (by norm_num)))), if_neg (fun hc => absurd hc.1 (not_le.2 (lt_of_lt_of_le hpb (by norm_num)))), if_neg (fun hc => absurd hc.1 (not_le.2 (lt_of_lt_of_le hpb (by norm_num)))), if_neg (fun hc => absurd hc.1 (not_le.2 (lt_of_lt_of_le hpb (by norm_num))))]
      · rw [if_neg (fun hc => absurd hc.2 (not_lt.2 (le_trans (by norm_num) hpa))), if_neg (fun hc => absurd hc.2 (not_lt.2 (le_trans (by norm_num) hpa))), if_neg (fun hc => absurd hc.2 (not_lt.2 (le_trans (by norm_num) hpa))), if_neg (fun hc => absurd hc.2 (not_lt.2 (le_trans (by norm_num) hpa))), if_neg (fun hc => absurd hc.2 (not_lt.2 (le_trans (by norm_num) hpa))), if_neg (fun hc => absurd hc.2 (not_lt.2 (le_trans (by norm_num) hpa))), if_neg (fun hc => absurd hc.1 (not_le.2 (lt_of_lt_of_le hpb (by norm_num)))), if_neg (fun hc => absurd hc.1 (not_le.2 (lt_of_lt_of_le hpb (by norm_num)))), if_neg (fun hc => absurd hc.1 (not_le.2 (lt_of_lt_of_le hpb (by norm_num)))), if_neg (fun hc => absurd hc.1 (not_le.2 (lt_of_lt_of_le hpb (by norm_num))))]
      · rw [if_neg (fun hc => absurd hc.2 (not_lt.2 (le_trans (by norm_num) hpa))), if_neg (fun hc => absurd hc.2 (not_lt.2 (le_trans (by norm_num) hpa))), if_neg (fun hc => absurd hc.2 (not_lt.2 (le_trans (by norm_num) hpa))), if_neg (fun hc => absurd hc.2 (not_lt.2 (le_trans (by norm_num) hpa))), if_neg (fun hc => absurd hc.2 (not_lt.2 (le_trans (by norm_num) hpa))), if_neg (fun hc => absurd hc.2 (not_lt.2 (le_trans (by norm_num) hpa))), if_neg (fun hc => absurd hc.2 (not_lt.2 (le_trans (by norm_num) hpa))), if_neg (fun hc => absurd hc.1 (not_le.2 (lt_of_lt_of_le hpb (by norm_num)))), if_neg (fun hc => absurd hc.1 (not_le.2 (lt_of_lt_of_le hpb (by norm_num)))), if_neg (fun hc => absurd hc.1 (not_le.2 (lt_of_lt_of_le hpb (by norm_num))))]
      · rw [if_neg (fun hc => absurd hc.2 (not_lt.2 (le_trans (by norm_num) hpa))), if_neg (fun hc => absurd hc.2 (not_lt.2 (le_trans (by norm_num) hpa))), if_neg (fun hc => absurd hc.2 (not_lt.2 (le_trans (by norm_num) hpa))), if_neg (fun hc => absurd hc.2 (not_lt.2 (le_trans (by norm_num) hpa))), if_neg (fun hc => absurd hc.2 (not_lt.2 (le_trans (by norm_num) hpa))), if_neg (fun hc => absurd hc.2 (not_lt.2 (le_trans (by norm_num) hpa))), if_neg (fun hc => absurd hc.2 (not_lt.2 (le_trans (by norm_num) hpa))), if_neg (fun hc => absurd hc.2 (not_lt.2 (le_trans (by norm_num) hpa))), if_neg (fun hc => absurd hc.1 (not_le.2 (lt_of_lt_of_le hpb (by norm_num)))), if_neg (fun hc => absurd hc.1 (not_le.2 (lt_of_lt_of_le hpb (by norm_num))))]
      · rw [if_neg (fun hc => absurd hc.2 (not_lt.2 (le_trans (by norm_num) hpa))), if_neg (fun hc => absurd hc.2 (not_lt.2 (le_trans (by norm_num) hpa))), if_neg (fun hc => absurd hc.2 (not_lt.2 (le_trans (by norm_num) hpa))), if_neg (fun hc => absurd hc.2 (not_lt.2 (le_trans (by norm_num) hpa))), if_neg (fun hc => absurd hc.2 (not_lt.2 (le_trans (by norm_num) hpa))), if_neg (fun hc => absurd hc.2 (not_lt.2 (le_trans (by norm_num) hpa))), if_neg (fun hc => absurd hc.2 (not_lt.2 (le_trans (by norm_num) hpa))), if_neg (fun hc => absurd hc.2 (not_lt.2 (le_trans (by norm_num) hpa))), if_neg (fun hc => absurd hc.2 (not_lt.2 (le_trans (by norm_num) hpa))), if_neg (fun hc => absurd hc.1 (not_le.2 (lt_of_lt_of_le hpb (by norm_num))))]
      · rw [if_neg (fun hc => absurd hc.2 (not_lt.2 (le_trans (by norm_num) hpa))), if_neg (fun hc => absurd hc.2 (not_lt.2 (le_trans (by norm_num) hpa))), if_neg (fun hc => absurd hc.2 (not_lt.2 (le_trans (by norm_num) hpa))), if_neg (fun hc => absurd hc.2 (not_lt.2 (le_trans (by norm_num) hpa))), if_neg (fun hc => absurd hc.2 (not_lt.2 (le_trans (by norm_num) hpa))), if_neg (fun hc => absurd hc.2 (not_lt.2 (le_trans (by norm_num) hpa))), if_neg (fun hc => absurd hc.2 (not_lt.2 (le_trans (by norm_num) hpa))), if_neg (fun hc => absurd hc.2 (not_lt.2 (le_trans (by norm_num) hpa))), if_neg (fun hc => absurd hc.2 (not_lt.2 (le_trans (by norm_num) hpa))), if_neg (fun hc => absurd hc.2 (not_lt.2 (le_trans (by norm_num) hpa)))]

/-- C2: for every nonnegative distance, the named service's `mapDistanceToRange`
is total, returns the label of the half-open 100 km bucket containing the
distance, and returns `"1000+km"` exactly when the distance is ≥ 1000; the
unnamed copy instead guarantees the bucket label only on `[lo, lo + 99)` and
returns `"1000+km"` exactly when the distance is ≥ 1000 or falls in one of the
ten 1 km gaps `[lo + 99, lo + 100)` its loop leaves uncovered. -/
theorem mapDistanceToRange_bands (d : ℚ) (h0 : 0 ≤ d) :
    (∀ p ∈ specBuckets, p.1 ≤ d → d < p.1 + 100 → Named.mapDistanceToRange d = p.2) ∧
    (Named.mapDistanceToRange d = "1000+km" ↔ 1000 ≤ d) ∧
    (d < 1000 → ∃ p ∈ specBuckets, Named.mapDistanceToRange d = p.2 ∧ p.1 ≤ d ∧ d < p.1 + 100) ∧
    (∀ p ∈ specBuckets, p.1 ≤ d → d < p.1 + 99 → Unnamed.mapDistanceToRange d = p.2) ∧
    (Unnamed.mapDistanceToRange d = "1000+km" ↔
      (1000 ≤ d ∨ ∃ p ∈ specBuckets, p.1 + 99 ≤ d ∧ d < p.1 + 100)) :=
  ⟨Named.mapDistanceToRange_bucket d, Named.mapDistanceToRange_top_iff d,
    fun hd => Named.mapDistanceToRange_covers d h0 hd,
    Unnamed.mapDistanceToRange_bucket99 d, Unnamed.mapDistanceToRange_top_iff_gaps d h0⟩


/-! ## C1: weight-tier selection -/

/-- On a breakpoint-sorted list containing a row with breakpoint ≤ weight, the
indexed walk returns a row whose breakpoint is the greatest one not exceeding
the weight. -/
theorem selectLoop_spec (w : ℚ) : ∀ l : List PricingRow, l.Sorted bpLE →
    (∃ x ∈ l, bpv x ≤ w) →
    ∃ r, selectLoop w l = some r ∧ r ∈ l ∧ bpv r ≤ w ∧
      ∀ y ∈ l, bpv y ≤ w → bpv y ≤ bpv r := by
  intro l
  induction l with
  | nil => rintro - ⟨x, hx, -⟩; exact absurd hx (List.not_mem_nil x)
  | cons c tail ih =>
    intro hsort hex
    cases tail with
    | nil =>
      obtain ⟨x, hx, hxw⟩ := hex
      rw [List.mem_singleton] at hx
      subst hx
      refine ⟨x, by simp only [selectLoop, if_pos hxw], List.mem_singleton_self x, hxw, ?_⟩
      intro y hy hyw
      rw [List.mem_singleton] at hy
      subst hy
      exact le_rfl
    | cons n rest =>
      by_cases hcond : bpv c ≤ w ∧ w < bpv n
      · refine ⟨c, by simp only [selectLoop, if_pos hcond], List.mem_cons_self c _,
          hcond.1, ?_⟩
        intro y hy hyw
        rcases List.mem_cons.1 hy with rfl | hy2
        · exact le_rfl
        · have hny : bpv n ≤ bpv y := by
            rcases List.mem_cons.1 hy2 with rfl | hy3
            · exact le_rfl
            · exact List.rel_of_sorted_cons hsort.of_cons y hy3
          linarith [hcond.2]
      · have hsort2 : (n :: rest).Sorted bpLE := hsort.of_cons
        have hcw : bpv c ≤ w := by
          by_contra hc
          obtain ⟨x, hx, hxw⟩ := hex
          rcases List.mem_cons.1 hx with rfl | hx2
          · exact hc hxw
          · exact hc (le_trans (List.rel_of_sorted_cons hsort x hx2) hxw)
        have hnw : bpv n ≤ w := not_lt.1 (fun hb => hcond ⟨hcw, hb⟩)
        obtain ⟨r, hsel, hmem, hrw, hmax⟩ := ih hsort2 ⟨n, List.mem_cons_self n rest, hnw⟩
        refine ⟨r, ?_, List.mem_cons_of_mem c hmem, hrw, ?_⟩
        · rw [selectLoop, if_neg hcond]
          exact hsel
        · intro y hy hyw
          rcases List.mem_cons.1 hy with rfl | hy2
          · exact List.rel_of_sorted_cons hsort r hmem
          · exact hmax y hy2 hyw

section ConcreteEvaluations

attribute [local semireducible] Rat.add Rat.mul Rat.sub Rat.inv

/-- C1: when some row's breakpoint does not exceed the weight,
`selectPricingByWeight` returns a row of the set whose breakpoint is the
greatest breakpoint not exceeding the weight (so when the weight exceeds every
breakpoint it is the highest-breakpoint row); when no row has a breakpoint it
returns the first (catch-all) row; and on breakpoints [0, 500, 1000] the
weights 750, 1000 and 10000 select the 500, 1000 and 1000 tiers. -/
theorem selectPricingByWeight_spec (pricings qs : List PricingRow) (weight : ℚ)
    (hex : ∃ p ∈ pricings, ∃ b, p.breakpointValue = some b ∧ b ≤ weight)
    (hnone : ∀ p ∈ qs, p.breakpointValue = none) :
    (∃ r b, selectPricingByWeight pricings weight = some r ∧ r ∈ pricings ∧
      r.breakpointValue = some b ∧ b ≤ weight ∧
      ∀ p ∈ pricings, ∀ c, p.breakpointValue = some c → c ≤ weight → c ≤ b) ∧
    selectPricingByWeight qs weight = qs.head? ∧
    selectPricingByWeight
      [⟨300, "0-99km", some 0, 10⟩, ⟨300, "0-99km", some 500, 20⟩,
        ⟨300, "0-99km", some 1000, 30⟩] 750 = some ⟨300, "0-99km", some 500, 20⟩ ∧
    selectPricingByWeight
      [⟨300, "0-99km", some 0, 10⟩, ⟨300, "0-99km", some 500, 20⟩,
        ⟨300, "0-99km", some 1000, 30⟩] 1000 = some ⟨300, "0-99km", some 1000, 30⟩ ∧
    selectPricingByWeight
      [⟨300, "0-99km", some 0, 10⟩, ⟨300, "0-99km", some 500, 20⟩,
        ⟨300, "0-99km", some 1000, 30⟩] 10000 = some ⟨300, "0-99km", some 1000, 30⟩ := by
  refine ⟨?_, ?_, by decide, by decide, by decide⟩
  · obtain ⟨p, hp, b, hpb, hbw⟩ := hex
    have hpf : p ∈ pricings.filter (fun r => r.breakpointValue.isSome) :=
      List.mem_filter.2 ⟨hp, by rw [hpb]; rfl⟩
    have hps : p ∈ sortedBreakpointRows pricings := by
      rw [sortedBreakpointRows, List.mem_insertionSort]
      exact hpf
    have hsort : (sortedBreakpointRows pricings).Sorted bpLE :=
      List.sorted_insertionSort bpLE _
    have hpw : bpv p ≤ weight := by rw [bpv, hpb]; exact hbw
    obtain ⟨r, hsel, hmem, hrw, hmax⟩ := selectLoop_spec weight _ hsort ⟨p, hps, hpw⟩
    have hrf : r ∈ pricings.filter (fun x => x.breakpointValue.isSome) := by
      rw [sortedBreakpointRows, List.mem_insertionSort] at hmem
      exact hmem
    obtain ⟨hrp, hrs⟩ := List.mem_filter.1 hrf
    obtain ⟨br, hbr⟩ := Option.isSome_iff_exists.1 (by simpa using hrs)
    refine ⟨r, br, ?_, hrp, hbr, ?_, ?_⟩
    · rw [selectPricingByWeight, hsel]
    · have := hrw
      rw [bpv, hbr] at this
      exact this
    · intro p2 hp2 c hc hcw
      have hp2s : p2 ∈ sortedBreakpointRows pricings := by
        rw [sortedBreakpointRows, List.mem_insertionSort]
        exact List.mem_filter.2 ⟨hp2, by rw [hc]; rfl⟩
      have := hmax p2 hp2s (by rw [bpv, hc]; exact hcw)
      rw [bpv, hc, bpv, hbr] at this
      exact this
  · have hfilter : qs.filter (fun r => r.breakpointValue.isSome) = [] :=
      List.filter_eq_nil_iff.2 (fun a ha => by rw [hnone a ha]; exact Bool.false_ne_true)
    cases qs with
    | nil => rfl
    | cons q rest =>
      rw [selectPricingByWeight, sortedBreakpointRows, hfilter]
      rw [List.find?_cons_of_pos _ (by simp [hnone q (List.mem_cons_self q rest)])]
      rfl


/-- Witness for `selectPricingByWeight_spec` at the example row set. -/
theorem selectPricingByWeight_spec_witness :
    (∃ r b, selectPricingByWeight
        ([⟨300, "0-99km", some 0, 10⟩, ⟨300, "0-99km", some 500, 20⟩,
          ⟨300, "0-99km", some 1000, 30⟩] : List PricingRow) 750 = some r ∧
      r ∈ ([⟨300, "0-99km", some 0, 10⟩, ⟨300, "0-99km", some 500, 20⟩,
          ⟨300, "0-99km", some 1000, 30⟩] : List PricingRow) ∧
      r.breakpointValue = some b ∧ b ≤ 750 ∧
      ∀ p ∈ ([⟨300, "0-99km", some 0, 10⟩, ⟨300, "0-99km", some 500, 20⟩,
          ⟨300, "0-99km", some 1000, 30⟩] : List PricingRow),
        ∀ c, p.breakpointValue = some c → c ≤ 750 → c ≤ b) ∧
    selectPricingByWeight [⟨300, "0-99km", none, 5⟩] 750 =
      ([⟨300, "0-99km", none, 5⟩] : List PricingRow).head? ∧
    selectPricingByWeight
      [⟨300, "0-99km", some 0, 10⟩, ⟨300, "0-99km", some 500, 20⟩,
        ⟨300, "0-99km", some 1000, 30⟩] 750 = some ⟨300, "0-99km", some 500, 20⟩ ∧
    selectPricingByWeight
      [⟨300, "0-99km", some 0, 10⟩, ⟨300, "0-99km", some 500, 20⟩,
        ⟨300, "0-99km", some 1000, 30⟩] 1000 = some ⟨300, "0-99km", some 1000, 30⟩ ∧
    selectPricingByWeight
      [⟨300, "0-99km", some 0, 10⟩, ⟨300, "0-99km", some 500, 20⟩,
        ⟨300, "0-99km", some 1000, 30⟩] 10000 = some ⟨300, "0-99km", some 1000, 30⟩ :=
  selectPricingByWeight_spec _ _ 750
    ⟨⟨300, "0-99km", some 0, 10⟩, by decide, 0, rfl, by norm_num⟩
    (by decide)

end ConcreteEvaluations

/-- Counterexample for C2 as stated: at 99 km the unnamed copy's banding
returns `"1000+km"` although 99 < 1000 and the bucket containing 99 is
labelled `"0-99km"` (as the named service correctly answers). -/
theorem mapDistanceToRange_gap_cex :
    Unnamed.mapDistanceToRange 99 = "1000+km" ∧ ¬ (1000 ≤ (99 : ℚ)) ∧
    Named.mapDistanceToRange 99 = "0-99km" :=
  ⟨by decide, by norm_num, by decide⟩

/-- Witness for `mapDistanceToRange_bands` at distance 250. -/
theorem mapDistanceToRange_bands_witness :
    Named.mapDistanceToRange 250 = "200-299km" ∧
    Unnamed.mapDistanceToRange 250 = "200-299km" ∧
    (Named.mapDistanceToRange 250 = "1000+km" ↔ 1000 ≤ (250 : ℚ)) :=
  ⟨(mapDistanceToRange_bands 250 (by norm_num)).1 (200, "200-299km") (by decide)
      (by norm_num) (by norm_num),
    (mapDistanceToRange_bands 250 (by norm_num)).2.2.2.1 (200, "200-299km") (by decide)
      (by norm_num) (by norm_num),
    (mapDistanceToRange_bands 250 (by norm_num)).2.1⟩

/-! ## C4: tiered pricing-row search -/

/-- C4: the three row tiers are exact-match on (rounded class, band), the
relaxed distance match of the rounded class (tried only for a band containing
a dash), and all rows of the rounded class; each later tier is consulted only
when the previous tier produced no rows, so a nonempty tier 1 is always
returned as is. -/
theorem findPricingEntries_tiered (table : List PricingRow) (freightClass : ℚ)
    (distance : String) :
    (∀ p, p ∈ tier1 table ((jsRound freightClass : ℤ) : ℚ) distance ↔
      p ∈ table ∧ p.freightClass = ((jsRound freightClass : ℤ) : ℚ) ∧ p.distance = distance) ∧
    (∀ p, p ∈ tier2 table ((jsRound freightClass : ℤ) : ℚ) distance ↔
      p ∈ table ∧ p.freightClass = ((jsRound freightClass : ℤ) : ℚ) ∧
        (p.distance = distance ∨
          jsStartsWith p.distance (jsTrim ((jsSplit distance "-").getD 0 "")) = true ∨
          p.distance = jsTrim ((jsSplit distance "-").getD 0 ""))) ∧
    (∀ p, p ∈ tier3 table ((jsRound freightClass : ℤ) : ℚ) ↔
      p ∈ table ∧ p.freightClass = ((jsRound freightClass : ℤ) : ℚ)) ∧
    (tier1 table ((jsRound freightClass : ℤ) : ℚ) distance ≠ [] →
      findPricingEntries table freightClass distance =
        tier1 table ((jsRound freightClass : ℤ) : ℚ) distance) ∧
    (tier1 table ((jsRound freightClass : ℤ) : ℚ) distance = [] →
      jsIncludes distance "-" = true →
      tier2 table ((jsRound freightClass : ℤ) : ℚ) distance ≠ [] →
      findPricingEntries table freightClass distance =
        tier2 table ((jsRound freightClass : ℤ) : ℚ) distance) ∧
    (tier1 table ((jsRound freightClass : ℤ) : ℚ) distance = [] →
      (jsIncludes distance "-" = false ∨
        tier2 table ((jsRound freightClass : ℤ) : ℚ) distance = []) →
      findPricingEntries table freightClass distance =
        tier3 table ((jsRound freightClass : ℤ) : ℚ)) := by
  refine ⟨?_, ?_, ?_, ?_, ?_, ?_⟩
  · intro p
    simp [tier1, List.mem_filter, and_assoc]
  · intro p
    simp [tier2, tier3, List.mem_filter, and_assoc]
    tauto
  · intro p
    simp [tier3, List.mem_filter]
  · intro h1
    rw [findPricingEntries, if_pos h1]
  · intro h1 hdash h2
    rw [findPricingEntries, if_neg (by simpa using h1), hdash]
    simp only [if_true]
    rw [if_pos h2]
  · rintro h1 (hdash | h2)
    · rw [findPricingEntries, if_neg (by simpa using h1), hdash]
      simp only [if_false]
      rfl
    · rw [findPricingEntries, if_neg (by simpa using h1)]
      by_cases hdash : jsIncludes distance "-" = true
      · rw [hdash]
        simp only [if_true]
        rw [h2, if_neg (by simp)]
      · rw [Bool.not_eq_true] at hdash
        rw [hdash]
        simp only [if_false]
        rfl

section ConcreteEvaluations2

attribute [local semireducible] Rat.add Rat.mul Rat.sub Rat.inv

/-- Witness for `findPricingEntries_tiered`: with a tier-1 row present the
search returns exactly the tier-1 rows. -/
theorem findPricingEntries_tiered_witness :
    findPricingEntries [⟨300, "0-99km", some 0, 10⟩] 300 "0-99km" =
      tier1 [⟨300, "0-99km", some 0, 10⟩] ((jsRound (300 : ℚ) : ℤ) : ℚ) "0-99km" ∧
    tier1 [⟨300, "0-99km", some 0, 10⟩] ((jsRound (300 : ℚ) : ℤ) : ℚ) "0-99km" =
      [⟨300, "0-99km", some 0, 10⟩] :=
  ⟨(findPricingEntries_tiered [⟨300, "0-99km", some 0, 10⟩] 300 "0-99km").2.2.2.1
      (by decide), by decide⟩

end ConcreteEvaluations2

/-! ## C3: density classification -/

/-- The classification loop returns the class of the first matching row. -/
theorem classifyLoop_eq_find (d : ℚ) (l : List DensityClassRow) :
    classifyLoop d l = (l.find? (rowMatches d)).map (fun r => r.assignedFreightClass) := by
  induction l with
  | nil => rfl
  | cons r rs ih =>
    by_cases h : rowMatches d r
    · rw [classifyLoop, if_pos h, List.find?_cons_of_pos _ h]
      rfl
    · rw [classifyLoop, if_neg h, List.find?_cons_of_neg _ h, ih]

/-- The sub-sorted table is empty exactly when the table is. -/
theorem sortBySub_eq_nil_iff (table : List DensityClassRow) :
    sortBySub table = [] ↔ table = [] := by
  constructor
  · intro h
    have := (List.perm_insertionSort subLE table).length_eq
    rw [sortBySub] at h
    rw [h] at this
    exact List.length_eq_zero.1 this.symm
  · rintro rfl
    rfl

/-- The literal label `"Less than 1"` matches exactly densities below 1. -/
theorem rowMatches_lessThan1 (d : ℚ) (r : DensityClassRow)
    (h : r.densityRange = "Less than 1") : rowMatches d r = true ↔ d < 1 := by
  rw [rowMatches]
  by_cases hd : d < 1
  · rw [if_pos ⟨h, hd⟩]
    simp [hd]
  · rw [if_neg (fun hc => hd hc.2), h]
    rw [if_neg (by decide)]
    simp only [decide_eq_true_eq]
    constructor
    · rintro ⟨hlab, -⟩
      exact absurd hlab (by decide)
    · intro hlt
      exact absurd hlt hd

/-- A label containing `"but less than"` with parsable bounds matches exactly
the half-open interval `[mn, mx)`. -/
theorem rowMatches_between (d : ℚ) (r : DensityClassRow) (mn mx : ℚ)
    (h : jsIncludes r.densityRange "but less than" = true)
    (hmn : rangeMin r.densityRange = some mn) (hmx : rangeMax r.densityRange = some mx) :
    rowMatches d r = true ↔ (mn ≤ d ∧ d < mx) := by
  rw [rowMatches]
  rw [if_neg (fun hc => by rw [hc.1] at h; exact absurd h (by decide))]
  rw [h]
  simp only [if_true, hmn, hmx, decide_eq_true_eq]

/-- The literal label `"50 or greater"` matches exactly densities ≥ 50. -/
theorem rowMatches_geq50 (d : ℚ) (r : DensityClassRow)
    (h : r.densityRange = "50 or greater") : rowMatches d r = true ↔ 50 ≤ d := by
  rw [rowMatches]
  rw [if_neg (fun hc => by rw [h] at hc; exact absurd hc.1 (by decide))]
  rw [h]
  rw [if_neg (by decide)]
  simp only [decide_eq_true_eq]
  constructor
  · rintro ⟨-, hge⟩
    exact hge
  · intro hge
    exact ⟨trivial, hge⟩

/-- A found first match decides the classification. -/
theorem findFreightClassByDensity_of_found (table : List DensityClassRow) (d : ℚ)
    (r : DensityClassRow) (h : (sortBySub table).find? (rowMatches d) = some r) :
    findFreightClassByDensity table d = some r.assignedFreightClass := by
  rw [findFreightClassByDensity, classifyLoop_eq_find, h]
  rfl

/-- With no matching row the classification is the last-row fallback. -/
theorem findFreightClassByDensity_of_not_found (table : List DensityClassRow) (d : ℚ)
    (h : (sortBySub table).find? (rowMatches d) = none) :
    findFreightClassByDensity table d =
      (match (sortBySub table).getLast? with
        | some r => if r.assignedFreightClass = 0 then none else some r.assignedFreightClass
        | none => none) := by
  rw [findFreightClassByDensity, classifyLoop_eq_find, h]
  rfl

section ConcreteEvaluations3

attribute [local semireducible] Rat.add Rat.mul Rat.sub Rat.inv

/-- C3 (amended): the classifier walks the table sorted ascending by `sub`,
returns the first row matching the code's label tests — which recognize only
the literal `"Less than 1"`, the general `"A but less than B"` interval, and
the literal `"50 or greater"` — falls back to the last row's class when no row
matches (null when that class is 0), and returns null exactly when the table
is empty or that zero-class fallback fires; on the seed table density 1.5
classifies as 300 and density 54 as 50. -/
theorem findFreightClassByDensity_spec (table : List DensityClassRow) (d : ℚ) :
    List.Sorted subLE (sortBySub table) ∧
    List.Perm (sortBySub table) table ∧
    (∀ r, (sortBySub table).find? (rowMatches d) = some r →
      findFreightClassByDensity table d = some r.assignedFreightClass) ∧
    ((sortBySub table).find? (rowMatches d) = none →
      findFreightClassByDensity table d =
        (match (sortBySub table).getLast? with
          | some r => if r.assignedFreightClass = 0 then none else some r.assignedFreightClass
          | none => none)) ∧
    (findFreightClassByDensity table d = none ↔
      (table = [] ∨ ((sortBySub table).find? (rowMatches d) = none ∧
        ∃ r, (sortBySub table).getLast? = some r ∧ r.assignedFreightClass = 0))) ∧
    (∀ r : DensityClassRow, r.densityRange = "Less than 1" →
      (rowMatches d r = true ↔ d < 1)) ∧
    (∀ r : DensityClassRow, ∀ mn mx : ℚ, jsIncludes r.densityRange "but less than" = true →
      rangeMin r.densityRange = some mn → rangeMax r.densityRange = some mx →
      (rowMatches d r = true ↔ (mn ≤ d ∧ d < mx))) ∧
    (∀ r : DensityClassRow, r.densityRange = "50 or greater" →
      (rowMatches d r = true ↔ 50 ≤ d)) ∧
    findFreightClassByDensity seedFreightCalculations (3/2) = some 300 ∧
    findFreightClassByDensity seedFreightCalculations 54 = some 50 := by
  refine ⟨List.sorted_insertionSort subLE table, List.perm_insertionSort subLE table,
    fun r h => findFreightClassByDensity_of_found table d r h,
    fun h => findFreightClassByDensity_of_not_found table d h, ?_,
    fun r h => rowMatches_lessThan1 d r h,
    fun r mn mx h hmn hmx => rowMatches_between d r mn mx h hmn hmx,
    fun r h => rowMatches_geq50 d r h, by decide, by decide⟩
  rcases hf : (sortBySub table).find? (rowMatches d) with - | r
  · rw [findFreightClassByDensity_of_not_found table d hf]
    rcases hl : (sortBySub table).getLast? with - | r
    · have ht : table = [] := by
        rw [← sortBySub_eq_nil_iff]
        exact List.getLast?_eq_none_iff.1 hl
      simp [ht]
    · show (if r.assignedFreightClass = 0 then none else some r.assignedFreightClass) = none ↔ _
      by_cases hz : r.assignedFreightClass = 0
      · rw [if_pos hz]
        exact iff_of_true rfl (Or.inr ⟨rfl, r, rfl, hz⟩)
      · rw [if_neg hz]
        refine iff_of_false (by simp) ?_
        rintro (ht | ⟨-, r2, hr2, hz2⟩)
        · rw [ht] at hl
          exact absurd hl (by simp [sortBySub])
        · injection hr2 with he
          rw [← he] at hz2
          exact absurd hz2 hz
  · rw [findFreightClassByDensity_of_found table d r hf]
    refine iff_of_false (by simp) ?_
    rintro (ht | ⟨hn, -⟩)
    · rw [ht] at hf
      exact absurd hf (by simp [sortBySub])
    · exact absurd hn (by simp)

/-- Witness for `findFreightClassByDensity_spec` on the seed table at
density 1.5. -/
theorem findFreightClassByDensity_spec_witness :
    findFreightClassByDensity seedFreightCalculations (3/2) = some 300 ∧
    (rowMatches (3/2) ⟨2, "1 but less than 2", 300⟩ = true ↔
      ((1 : ℚ) ≤ 3/2 ∧ (3/2 : ℚ) < 2)) :=
  ⟨(findFreightClassByDensity_spec seedFreightCalculations (3/2)).2.2.1
      ⟨2, "1 but less than 2", 300⟩ (by decide),
    (findFreightClassByDensity_spec seedFreightCalculations (3/2)).2.2.2.2.2.2.1
      ⟨2, "1 but less than 2", 300⟩ 1 2 (by decide) (by decide) (by decide)⟩

/-- Counterexample for C3 as stated: with labels drawn from the claimed
grammar but outside the three literal forms the code tests, density 1 should
match the first row `"Less than 2"` (class 400) yet the code matches nothing
and falls back to the last row's class 300. -/
theorem findFreightClassByDensity_grammar_cex :
    findFreightClassByDensity [⟨1, "Less than 2", 400⟩, ⟨2, "2 or greater", 300⟩] 1 =
      some 300 ∧
    specClassify [⟨1, "Less than 2", 400⟩, ⟨2, "2 or greater", 300⟩] 1 = some 400 ∧
    specRowMatches 1 ⟨1, "Less than 2", 400⟩ = true ∧
    rowMatches 1 ⟨1, "Less than 2", 400⟩ = false :=
  ⟨by decide, by decide, by decide, by decide⟩

end ConcreteEvaluations3

/-! ## C5: nearest-class fallback -/

/-- The `reduce`-style scan returns a scanned value whose distance to the
target class is minimal and — on an ascending list — least among the distance
ties. -/
theorem nearestClass_fold_spec (fc : ℚ) : ∀ (l : List ℚ) (a : ℚ),
    (l.foldl (Unnamed.nearestStep fc) a ∈ a :: l) ∧
    (∀ c ∈ a :: l, |l.foldl (Unnamed.nearestStep fc) a - fc| ≤ |c - fc|) ∧
    ((a :: l).Sorted (fun u v => u ≤ v) →
      ∀ c ∈ a :: l, |c - fc| = |l.foldl (Unnamed.nearestStep fc) a - fc| →
        l.foldl (Unnamed.nearestStep fc) a ≤ c) := by
  intro l
  induction l with
  | nil =>
    intro a
    refine ⟨List.mem_singleton_self a, ?_, ?_⟩
    · intro c hc
      rw [List.mem_singleton] at hc
      subst hc
      exact le_rfl
    · intro hs c hc heq
      rw [List.mem_singleton] at hc
      subst hc
      exact le_rfl
  | cons x xs ih =>
    intro a
    rw [List.foldl_cons]
    by_cases hcond : |x - fc| < |a - fc|
    · rw [Unnamed.nearestStep, if_pos hcond]
      obtain ⟨ihmem, ihmin, ihtie⟩ := ih x
      refine ⟨?_, ?_, ?_⟩
      · rcases List.mem_cons.1 ihmem with he | hxs
        · rw [he]
          exact List.mem_cons_of_mem a (List.mem_cons_self x xs)
        · exact List.mem_cons_of_mem a (List.mem_cons_of_mem x hxs)
      · intro c hc
        rcases List.mem_cons.1 hc with rfl | hc2
        · exact le_trans (ihmin x (List.mem_cons_self x xs)) (le_of_lt hcond)
        rcases List.mem_cons.1 hc2 with rfl | hc3
        · exact ihmin c (List.mem_cons_self c xs)
        · exact ihmin c (List.mem_cons_of_mem x hc3)
      · intro hsort c hc heq
        have hsort2 : (x :: xs).Sorted (fun u v => u ≤ v) := hsort.of_cons
        rcases List.mem_cons.1 hc with rfl | hc2
        · exfalso
          have h1 := lt_of_le_of_lt (ihmin x (List.mem_cons_self x xs)) hcond
          rw [heq] at h1
          exact lt_irrefl _ h1
        rcases List.mem_cons.1 hc2 with rfl | hc3
        · exact ihtie hsort2 c (List.mem_cons_self c xs) heq
        · exact ihtie hsort2 c (List.mem_cons_of_mem x hc3) heq
    · rw [Unnamed.nearestStep, if_neg hcond]
      obtain ⟨ihmem, ihmin, ihtie⟩ := ih a
      have hax : |a - fc| ≤ |x - fc| := not_lt.1 hcond
      refine ⟨?_, ?_, ?_⟩
      · rcases List.mem_cons.1 ihmem with he | hxs
        · rw [he]
          exact List.mem_cons_self a (x :: xs)
        · exact List.mem_cons_of_mem a (List.mem_cons_of_mem x hxs)
      · intro c hc
        rcases List.mem_cons.1 hc with rfl | hc2
        · exact ihmin c (List.mem_cons_self c xs)
        rcases List.mem_cons.1 hc2 with rfl | hc3
        · exact le_trans (ihmin a (List.mem_cons_self a xs)) hax
        · exact ihmin c (List.mem_cons_of_mem a hc3)
      · intro hsort c hc heq
        have hsxs : xs.Sorted (fun u v => u ≤ v) := hsort.of_cons.of_cons
        have hsort2 : (a :: xs).Sorted (fun u v => u ≤ v) :=
          List.sorted_cons.2 ⟨fun b hb =>
            List.rel_of_sorted_cons hsort b (List.mem_cons_of_mem x hb), hsxs⟩
        rcases List.mem_cons.1 hc with rfl | hc2
        · exact ihtie hsort2 c (List.mem_cons_self c xs) heq
        rcases List.mem_cons.1 hc2 with rfl | hc3
        · have hra := ihmin a (List.mem_cons_self a xs)
          have heqa : |a - fc| = |List.foldl (Unnamed.nearestStep fc) a xs - fc| :=
            le_antisymm (by rw [← heq]; exact hax) hra
          exact le_trans (ihtie hsort2 a (List.mem_cons_self a xs) heqa)
            (List.rel_of_sorted_cons hsort c (List.mem_cons_self c xs))
        · exact ihtie hsort2 c (List.mem_cons_of_mem a hc3) heq

/-- The named service's `(nearest, minDiff)` loop computes the same class as
the unnamed copy's `reduce` (the running minimum always equals the distance of
the running nearest class). -/
theorem nearestClass_loop_eq (fc : ℚ) : ∀ (l : List ℚ) (a : ℚ),
    Named.nearestClass fc l a = Unnamed.nearestClass fc l a := by
  have main : ∀ (l : List ℚ) (a : ℚ),
      l.foldl (Named.nearestStep fc) (a, |fc - a|) =
        (l.foldl (Unnamed.nearestStep fc) a,
          |fc - l.foldl (Unnamed.nearestStep fc) a|) := by
    intro l
    induction l with
    | nil => intro a; rfl
    | cons x xs ih =>
      intro a
      rw [List.foldl_cons, List.foldl_cons]
      have hstep : Named.nearestStep fc (a, |fc - a|) x =
          (Unnamed.nearestStep fc a x, |fc - Unnamed.nearestStep fc a x|) := by
        rw [Named.nearestStep, Unnamed.nearestStep]
        by_cases h : |x - fc| < |a - fc|
        · rw [if_pos h, if_pos (by rw [abs_sub_comm fc x, abs_sub_comm fc a]; exact h)]
        · rw [if_neg h, if_neg (by rw [abs_sub_comm fc x, abs_sub_comm fc a]; exact h)]
      rw [hstep, ih]
  intro l a
  rw [Named.nearestClass, Unnamed.nearestClass, main l a]

/-- The two services' per-box price fallback ladders agree. -/
theorem resolvePrice_eq (priceTable : List PricingRow) (fc dk : ℚ) (range : String)
    (w : ℚ) :
    Named.resolvePrice priceTable fc dk range w =
      Unnamed.resolvePrice priceTable fc dk range w := by
  simp only [Named.resolvePrice, Unnamed.resolvePrice, nearestClass_loop_eq]

/-- Membership in the distinct-class list. -/
theorem mem_availableClasses (table : List PricingRow) (c : ℚ) :
    c ∈ availableClasses table ↔ ∃ p ∈ table, p.freightClass = c := by
  rw [availableClasses, List.mem_insertionSort, List.mem_dedup, List.mem_map]

/-- The distinct-class list is ascending. -/
theorem sorted_availableClasses (table : List PricingRow) :
    (availableClasses table).Sorted (fun u v => u ≤ v) :=
  List.sorted_insertionSort _ _

/-- The distinct-class list is empty exactly when the table is. -/
theorem availableClasses_eq_nil_iff (table : List PricingRow) :
    availableClasses table = [] ↔ table = [] := by
  constructor
  · intro h
    rcases htab : table with - | ⟨p, ps⟩
    · rfl
    · exfalso
      have hm : p.freightClass ∈ availableClasses table :=
        (mem_availableClasses _ _).2 ⟨p, by rw [htab]; exact List.mem_cons_self p ps, rfl⟩
      rw [h] at hm
      exact absurd hm (List.not_mem_nil _)
  · rintro rfl
    rfl

/-- The tiered search over an empty table finds no rows. -/
theorem findPricingEntries_nil (fc : ℚ) (dist : String) :
    findPricingEntries [] fc dist = [] := by
  simp [findPricingEntries, tier1, tier2, tier3]

/-- The tiered search prices nothing against an empty table. -/
theorem findPriceAndRate_nil (fc : ℚ) (dist : String) (w : ℚ) :
    findPriceAndRateByClassAndDistance [] fc dist w = none := by
  simp [findPriceAndRateByClassAndDistance, findPricingEntries_nil]

/-- The per-box fallback of the named service hits the no-reference-data error
on an empty price table. -/
theorem Named.resolvePrice_nil (fc dk : ℚ) (range : String) (w : ℚ) :
    Named.resolvePrice [] fc dk range w = .error .noPricingData := by
  by_cases hint : qIsInt fc
  · simp only [Named.resolvePrice, findPriceAndRate_nil, hint, not_true_eq_false, if_false]
    rfl
  · simp only [Named.resolvePrice, findPriceAndRate_nil,
      if_pos (show ¬ qIsInt fc from hint)]
    rfl

/-- C5: when the computed class and its rounding both fail to price, the
per-box fallback errors with the no-reference-data error on an empty price
table; otherwise it retries with the distinct table class of minimal absolute
difference from the computed class (ties broken toward the lowest class) and,
when even that class has no price, fails with the unresolvable-price error
naming the attempted class, the nearest class, the distance, the weight and
the band.  The unnamed service copy behaves identically. -/
theorem nearestClassFallback_spec (priceTable : List PricingRow) (fc dk : ℚ)
    (range : String) (w : ℚ)
    (h1 : findPriceAndRateByClassAndDistance priceTable fc range w = none)
    (h2 : findPriceAndRateByClassAndDistance priceTable ((jsRound fc : ℤ) : ℚ) range w = none) :
    (priceTable = [] →
      Named.resolvePrice priceTable fc dk range w = .error .noPricingData) ∧
    (priceTable ≠ [] → ∃ nc,
      (∃ p ∈ priceTable, p.freightClass = nc) ∧
      (∀ p ∈ priceTable, |nc - fc| ≤ |p.freightClass - fc|) ∧
      (∀ p ∈ priceTable, |p.freightClass - fc| = |nc - fc| → nc ≤ p.freightClass) ∧
      Named.resolvePrice priceTable fc dk range w =
        (match findPriceAndRateByClassAndDistance priceTable nc range w with
          | some r => .ok (nc, r)
          | none => .error (.unresolvablePrice fc nc dk w range)) ∧
      Unnamed.resolvePrice priceTable fc dk range w =
        Named.resolvePrice priceTable fc dk range w) ∧
    (∀ (classTable : List DensityClassRow) (warehouses : List Warehouse)
        (settings : Option DiscountSetting) (b : Box) (bs : List Box)
        (o dpost country : String),
      ∃ e, Named.calculateShippingForBoxes classTable [] warehouses settings (b :: bs)
        dk range o dpost country = .error e) := by
  have hbase : Named.resolvePrice priceTable fc dk range w =
      (match availableClasses priceTable with
        | [] => .error .noPricingData
        | c0 :: rest =>
          match findPriceAndRateByClassAndDistance priceTable
              (Named.nearestClass fc (c0 :: rest) c0) range w with
          | some r => .ok (Named.nearestClass fc (c0 :: rest) c0, r)
          | none => .error (.unresolvablePrice fc
              (Named.nearestClass fc (c0 :: rest) c0) dk w range)) := by
    by_cases hint : qIsInt fc
    · simp only [Named.resolvePrice, h1, hint, not_true_eq_false, if_false]
    · simp only [Named.resolvePrice, h1, if_pos (show ¬ qIsInt fc from hint), h2]
  refine ⟨?_, ?_, ?_⟩
  · rintro rfl
    rw [hbase]
    rfl
  · intro hne
    rcases hcs : availableClasses priceTable with - | ⟨c0, rest⟩
    · exact absurd ((availableClasses_eq_nil_iff priceTable).1 hcs) hne
    · have hsrt : (c0 :: rest).Sorted (fun u v => u ≤ v) := by
        have hs := sorted_availableClasses priceTable
        rw [hcs] at hs
        exact hs
      have hsrt2 : (c0 :: c0 :: rest).Sorted (fun u v => u ≤ v) := by
        refine List.sorted_cons.2 ⟨?_, hsrt⟩
        intro b hb
        rcases List.mem_cons.1 hb with rfl | hb2
        · exact le_rfl
        · exact List.rel_of_sorted_cons hsrt b hb2
      obtain ⟨hmem, hmin, htie⟩ := nearestClass_fold_spec fc (c0 :: rest) c0
      have hloop : Named.nearestClass fc (c0 :: rest) c0 =
          (c0 :: rest).foldl (Unnamed.nearestStep fc) c0 := by
        rw [nearestClass_loop_eq]
        rfl
      refine ⟨Named.nearestClass fc (c0 :: rest) c0, ?_, ?_, ?_, ?_, ?_⟩
      · have hm2 : Named.nearestClass fc (c0 :: rest) c0 ∈ c0 :: rest := by
          rw [hloop]
          rcases List.mem_cons.1 hmem with he | hm
          · rw [he]
            exact List.mem_cons_self c0 rest
          · exact hm
        have hm3 : Named.nearestClass fc (c0 :: rest) c0 ∈ availableClasses priceTable := by
          rw [hcs]
          exact hm2
        exact (mem_availableClasses priceTable _).1 hm3
      · intro p hp
        have hpm : p.freightClass ∈ c0 :: rest := by
          have hm0 := (mem_availableClasses priceTable _).2 ⟨p, hp, rfl⟩
          rw [hcs] at hm0
          exact hm0
        rw [hloop]
        exact hmin p.freightClass (List.mem_cons_of_mem c0 hpm)
      · intro p hp heq
        have hpm : p.freightClass ∈ c0 :: rest := by
          have hm0 := (mem_availableClasses priceTable _).2 ⟨p, hp, rfl⟩
          rw [hcs] at hm0
          exact hm0
        rw [hloop]
        refine htie hsrt2 p.freightClass (List.mem_cons_of_mem c0 hpm) ?_
        rw [← hloop]
        exact heq
      · rw [hbase, hcs]
      · exact (resolvePrice_eq priceTable fc dk range w).symm
  · intro classTable warehouses settings b bs o dpost country
    have hbox : ∃ e, Named.processBox classTable [] dk range b = .error e := by
      simp only [Named.processBox]
      by_cases hval : b.length = 0 ∨ b.width = 0 ∨ b.height = 0 ∨ b.weight = 0
      · exact ⟨.invalidBox, by rw [if_pos hval]⟩
      · rw [if_neg hval]
        rcases hfc : findFreightClassByDensity classTable
            (Named.calculateDensity b.length b.width b.height b.weight) with - | c
        · exact ⟨_, rfl⟩
        · by_cases hz : c = 0
          · exact ⟨.noFreightClass
              (Named.calculateDensity b.length b.width b.height b.weight), by simp [hz]⟩
          · exact ⟨.noPricingData, by simp [hz, Named.resolvePrice_nil]⟩
    obtain ⟨e, he⟩ := hbox
    have hpb : Named.processBoxes classTable [] dk range (b :: bs) = .error e := by
      rw [Named.processBoxes, he]
    refine ⟨e, ?_⟩
    rw [Named.calculateShippingForBoxes, hpb]
    rfl

section ConcreteEvaluations4

attribute [local semireducible] Rat.add Rat.mul Rat.sub Rat.inv

/-- Witness for `nearestClassFallback_spec`: a one-row table of class 100
queried at computed class 250. -/
theorem nearestClassFallback_spec_witness :
    ∃ nc,
      (∃ p ∈ ([⟨100, "zzz", some 0, 50⟩] : List PricingRow), p.freightClass = nc) ∧
      (∀ p ∈ ([⟨100, "zzz", some 0, 50⟩] : List PricingRow),
        |nc - 250| ≤ |p.freightClass - 250|) ∧
      (∀ p ∈ ([⟨100, "zzz", some 0, 50⟩] : List PricingRow),
        |p.freightClass - 250| = |nc - 250| → nc ≤ p.freightClass) ∧
      Named.resolvePrice [⟨100, "zzz", some 0, 50⟩] 250 10 "0-99km" 500 =
        (match findPriceAndRateByClassAndDistance [⟨100, "zzz", some 0, 50⟩] nc
            "0-99km" 500 with
          | some r => .ok (nc, r)
          | none => .error (.unresolvablePrice 250 nc 10 500 "0-99km")) ∧
      Unnamed.resolvePrice [⟨100, "zzz", some 0, 50⟩] 250 10 "0-99km" 500 =
        Named.resolvePrice [⟨100, "zzz", some 0, 50⟩] 250 10 "0-99km" 500 :=
  (nearestClassFallback_spec [⟨100, "zzz", some 0, 50⟩] 250 10 "0-99km" 500
    (by decide) (by decide)).2.1 (by decide)

end ConcreteEvaluations4

/-! ## C6: subtotal accumulation and discount application -/

/-- `assembleQuote` propagates a box-loop error unchanged. -/
theorem assembleQuote_error (warehouses : List Warehouse) (settings : Option DiscountSetting)
    (e : CalcError) (dk : ℚ) (o dpost country : String) :
    assembleQuote warehouses settings (.error e) dk o dpost country = .error e := rfl

/-- The unnamed service's box loop is the per-box map together with the sum of
the unrounded line prices. -/
theorem Unnamed.processBoxes_eq_mapM (classTable : List DensityClassRow)
    (priceTable : List PricingRow) (dk : ℚ) (range : String) :
    ∀ boxes : List Box,
      Unnamed.processBoxes classTable priceTable dk range boxes =
        (boxes.mapM (Unnamed.processBox classTable priceTable dk range)).map
          (fun l => (l.map Prod.fst, (l.map Prod.snd).sum)) := by
  intro boxes
  induction boxes with
  | nil => rfl
  | cons b bs ih =>
    rw [List.mapM_cons]
    rcases hb : Unnamed.processBox classTable priceTable dk range b with e | qp
    · rw [Unnamed.processBoxes, hb]
      rfl
    · rw [Unnamed.processBoxes, hb, ih]
      rcases hbs : bs.mapM (Unnamed.processBox classTable priceTable dk range) with e | l
      · rfl
      · rfl

/-- The named service's box loop, likewise. -/
theorem Named.processBoxes_eq (classTable : List DensityClassRow)
    (priceTable : List PricingRow) (dk : ℚ) (range : String) :
    ∀ boxes : List Box,
      Named.processBoxes classTable priceTable dk range boxes =
        (boxes.mapM (Named.processBox classTable priceTable dk range)).map
          (fun l => (l.map Prod.fst, (l.map Prod.snd).sum)) := by
  intro boxes
  induction boxes with
  | nil => rfl
  | cons b bs ih =>
    rw [List.mapM_cons]
    rcases hb : Named.processBox classTable priceTable dk range b with e | qp
    · rw [Named.processBoxes, hb]
      rfl
    · rw [Named.processBoxes, hb, ih]
      rcases hbs : bs.mapM (Named.processBox classTable priceTable dk range) with e | l
      · rfl
      · rfl

section ConcreteEvaluations5

attribute [local semireducible] Rat.add Rat.mul Rat.sub Rat.inv

/-- C6: a successful quote's subtotal is the (output-rounded) sum of the
boxes' unrounded line prices; the total is that sum with the discount factor
applied and rounded to 3 decimals only at the end, equal to the subtotal when
the discount is off or 0, and equal to the 0-clamped discounted sum whenever
the discount settings respect the documented `[0, 100]` invariant and the
subtotal is nonnegative; a subtotal of 100 with a 10% discount totals 90. -/
theorem discount_application_spec (classTable : List DensityClassRow)
    (priceTable : List PricingRow) (warehouses : List Warehouse)
    (settings : Option DiscountSetting) (boxes : List Box) (dk : ℚ)
    (range o dpost country : String) (q : ShipmentQuote)
    (hok : Unnamed.calculateShippingForBoxes classTable priceTable warehouses settings
      boxes dk range o dpost country = .ok q) :
    ∃ results : List (BoxQuote × ℚ),
      boxes.mapM (Unnamed.processBox classTable priceTable dk range) = .ok results ∧
      q.boxes = results.map Prod.fst ∧
      q.subtotal = jsToFixed 3 (results.map Prod.snd).sum ∧
      q.discountPercent = discountPercentOf settings ∧
      q.total = jsToFixed 3 ((results.map Prod.snd).sum -
        (results.map Prod.snd).sum * (discountPercentOf settings / 100)) ∧
      (discountPercentOf settings = 0 → q.total = q.subtotal) ∧
      (0 ≤ (results.map Prod.snd).sum → 0 ≤ discountPercentOf settings →
        discountPercentOf settings ≤ 100 →
        q.total = jsToFixed 3 (max 0 ((results.map Prod.snd).sum *
          (1 - discountPercentOf settings / 100)))) ∧
      (∀ s : DiscountSetting, settings = some s → s.isDiscountEnabled = true →
        s.discountPercentage ≠ 0 → discountPercentOf settings = s.discountPercentage) ∧
      jsToFixed 3 (100 - 100 * ((10 : ℚ) / 100)) = 90 := by
  rw [Unnamed.calculateShippingForBoxes, Unnamed.processBoxes_eq_mapM] at hok
  rcases hbs : boxes.mapM (Unnamed.processBox classTable priceTable dk range) with e | results
  · rw [hbs] at hok
    exact absurd hok (by simp [assembleQuote, Except.map])
  · rw [hbs] at hok
    simp only [assembleQuote, Except.map] at hok
    rw [Except.ok.injEq] at hok
    subst hok
    refine ⟨results, rfl, rfl, rfl, rfl, rfl, ?_, ?_, ?_, by decide⟩
    · intro hdp
      rw [hdp]
      norm_num
    · intro hS hdp0 hdp100
      have hfac : (0 : ℚ) ≤ 1 - discountPercentOf settings / 100 := by linarith
      have hnn : (0 : ℚ) ≤ (results.map Prod.snd).sum *
          (1 - discountPercentOf settings / 100) := mul_nonneg hS hfac
      rw [max_eq_right hnn]
      ring_nf
    · intro s hset hen hnz
      rw [hset, discountPercentOf]
      simp [hen, hnz]

end ConcreteEvaluations5

section ConcreteEvaluations6

attribute [local semireducible] Rat.add Rat.mul Rat.sub Rat.inv

/-- Witness for `discount_application_spec`: subtotal 100 with a 10% discount
totals 90.000. -/
theorem discount_application_spec_witness :
    ∃ results : List (BoxQuote × ℚ),
      ([⟨12, 12, 12, 100⟩] : List Box).mapM
        (Unnamed.processBox [⟨13, "50 or greater", 50⟩] [⟨50, "0-99km", some 0, 100⟩]
          50 "0-99km") = .ok results ∧
      c6Quote.boxes = results.map Prod.fst ∧
      c6Quote.subtotal = jsToFixed 3 (results.map Prod.snd).sum ∧
      c6Quote.discountPercent = discountPercentOf (some ⟨true, 10⟩) ∧
      c6Quote.total = jsToFixed 3 ((results.map Prod.snd).sum -
        (results.map Prod.snd).sum * (discountPercentOf (some ⟨true, 10⟩) / 100)) ∧
      (discountPercentOf (some ⟨true, 10⟩) = 0 → c6Quote.total = c6Quote.subtotal) ∧
      (0 ≤ (results.map Prod.snd).sum → 0 ≤ discountPercentOf (some ⟨true, 10⟩) →
        discountPercentOf (some ⟨true, 10⟩) ≤ 100 →
        c6Quote.total = jsToFixed 3 (max 0 ((results.map Prod.snd).sum *
          (1 - discountPercentOf (some ⟨true, 10⟩) / 100)))) ∧
      (∀ s : DiscountSetting, (some ⟨true, 10⟩ : Option DiscountSetting) = some s →
        s.isDiscountEnabled = true → s.discountPercentage ≠ 0 →
        discountPercentOf (some ⟨true, 10⟩) = s.discountPercentage) ∧
      jsToFixed 3 (100 - 100 * ((10 : ℚ) / 100)) = 90 :=
  discount_application_spec [⟨13, "50 or greater", 50⟩] [⟨50, "0-99km", some 0, 100⟩]
    [] (some ⟨true, 10⟩) [⟨12, 12, 12, 100⟩] 50 "0-99km" "A1A" "B2B" "CA" c6Quote
    (by decide)

end ConcreteEvaluations6

/-! ## C9: box validation -/

/-- The validation loop accepts exactly lists with no falsy field. -/
theorem validateBoxesFrom_eq_none (i : ℕ) : ∀ bs : List BoxInput,
    validateBoxesFrom i bs = none ↔ ∀ b ∈ bs,
      ¬ (numFalsy b.length ∨ numFalsy b.width ∨ numFalsy b.height ∨ numFalsy b.weight) := by
  intro bs
  induction bs generalizing i with
  | nil => simp [validateBoxesFrom]
  | cons x xs ih =>
    rw [validateBoxesFrom]
    by_cases hx : numFalsy x.length ∨ numFalsy x.width ∨ numFalsy x.height ∨ numFalsy x.weight
    · rw [if_pos hx]
      simp only [List.mem_cons]
      exact iff_of_false (by simp) (fun hall => hall x (Or.inl rfl) hx)
    · rw [if_neg hx]
      rw [ih (i + 1)]
      constructor
      · intro hall b hb
        rcases List.mem_cons.1 hb with rfl | hb2
        · exact hx
        · exact hall b hb2
      · intro hall b hb
        exact hall b (List.mem_cons_of_mem x hb)

/-- A reported index locates the first box with a falsy field. -/
theorem validateBoxesFrom_eq_some (j : ℕ) : ∀ (bs : List BoxInput) (i : ℕ),
    validateBoxesFrom i bs = some j →
    ∃ l1 b l2, bs = l1 ++ b :: l2 ∧ j = i + l1.length ∧
      (numFalsy b.length ∨ numFalsy b.width ∨ numFalsy b.height ∨ numFalsy b.weight) ∧
      ∀ b2 ∈ l1,
        ¬ (numFalsy b2.length ∨ numFalsy b2.width ∨ numFalsy b2.height ∨ numFalsy b2.weight) := by
  intro bs
  induction bs with
  | nil => intro i h; exact absurd h (by simp [validateBoxesFrom])
  | cons x xs ih =>
    intro i h
    rw [validateBoxesFrom] at h
    by_cases hx : numFalsy x.length ∨ numFalsy x.width ∨ numFalsy x.height ∨ numFalsy x.weight
    · rw [if_pos hx] at h
      injection h with hj
      exact ⟨[], x, xs, rfl, by rw [← hj]; rfl, hx, by simp⟩
    · rw [if_neg hx] at h
      obtain ⟨l1, b, l2, hsplit, hj, hinv, hvalid⟩ := ih (i + 1) h
      refine ⟨x :: l1, b, l2, by rw [hsplit]; rfl, ?_, hinv, ?_⟩
      · rw [hj]
        simp only [List.length_cons]
        omega
      · intro b2 hb2
        rcases List.mem_cons.1 hb2 with rfl | hb3
        · exact hx
        · exact hvalid b2 hb3

/-- A list containing a falsy-field box never passes the named service's loop. -/
theorem Named.processBoxes_error_of_invalid (classTable : List DensityClassRow)
    (priceTable : List PricingRow) (dk : ℚ) (range : String) :
    ∀ bxs : List Box,
      (∃ b ∈ bxs, b.length = 0 ∨ b.width = 0 ∨ b.height = 0 ∨ b.weight = 0) →
      ∀ res, Named.processBoxes classTable priceTable dk range bxs = .ok res → False := by
  intro bxs
  induction bxs with
  | nil =>
    rintro ⟨b, hb, -⟩
    exact absurd hb (List.not_mem_nil b)
  | cons x xs ih =>
    rintro ⟨b, hb, hinv⟩ res hok
    rw [Named.processBoxes] at hok
    rcases hx : Named.processBox classTable priceTable dk range x with e | qp
    · rw [hx] at hok
      exact Except.noConfusion hok
    · rw [hx] at hok
      rcases List.mem_cons.1 hb with rfl | hb2
      · rw [Named.processBox, if_pos hinv] at hx
        exact Except.noConfusion hx
      · rcases hxs : Named.processBoxes classTable priceTable dk range xs with e | res2
        · rw [hxs] at hok
          exact Except.noConfusion hok
        · exact ih ⟨b, hb2, hinv⟩ res2 hxs

/-- C9 (amended): the controller's validation accepts a box list exactly when
every box has all four fields present and nonzero (the JS falsy test — it does
not check positivity), and otherwise reports the 1-based index of the first
offending box; and a shipment containing a falsy-field box never produces a
quote in the named service. -/
theorem boxValidation_spec (boxes : List BoxInput) :
    (validateBoxes boxes = none ↔ ∀ b ∈ boxes,
      ¬ (numFalsy b.length ∨ numFalsy b.width ∨ numFalsy b.height ∨ numFalsy b.weight)) ∧
    (∀ i, validateBoxes boxes = some i →
      ∃ l1 b l2, boxes = l1 ++ b :: l2 ∧ i = l1.length + 1 ∧
        (numFalsy b.length ∨ numFalsy b.width ∨ numFalsy b.height ∨ numFalsy b.weight) ∧
        ∀ b2 ∈ l1,
          ¬ (numFalsy b2.length ∨ numFalsy b2.width ∨ numFalsy b2.height ∨
            numFalsy b2.weight)) ∧
    (∀ (classTable : List DensityClassRow) (priceTable : List PricingRow)
        (warehouses : List Warehouse) (settings : Option DiscountSetting)
        (bxs : List Box) (dk : ℚ) (range o dpost country : String),
      (∃ b ∈ bxs, b.length = 0 ∨ b.width = 0 ∨ b.height = 0 ∨ b.weight = 0) →
      ∀ q, Named.calculateShippingForBoxes classTable priceTable warehouses settings bxs
        dk range o dpost country ≠ .ok q) := by
  refine ⟨validateBoxesFrom_eq_none 1 boxes, ?_, ?_⟩
  · intro i h
    obtain ⟨l1, b, l2, hsplit, hj, hinv, hvalid⟩ := validateBoxesFrom_eq_some i boxes 1 h
    exact ⟨l1, b, l2, hsplit, by omega, hinv, hvalid⟩
  · intro classTable priceTable warehouses settings bxs dk range o dpost country hex q hok
    rw [Named.calculateShippingForBoxes] at hok
    rcases hbx : Named.processBoxes classTable priceTable dk range bxs with e | res
    · rw [hbx, assembleQuote_error] at hok
      exact Except.noConfusion hok
    · exact Named.processBoxes_error_of_invalid classTable priceTable dk range bxs hex res hbx

section ConcreteEvaluations7

attribute [local semireducible] Rat.add Rat.mul Rat.sub Rat.inv

/-- Counterexample for C9 as stated: a box with negative weight is not
rejected — the controller validation passes it and the computation produces a
quote (with a negative price) instead of a validation error. -/
theorem boxValidation_negative_cex :
    validateBoxes [⟨some 100, some 100, some 100, some (-50)⟩] = none ∧
    ¬ (0 < (-50 : ℚ)) ∧
    Unnamed.calculateShippingForBoxes [⟨13, "50 or greater", 50⟩]
      [⟨50, "0-99km", some 0, 100⟩] [] none [⟨12, 12, 12, -50⟩] 50 "0-99km"
      "A1A" "B2B" "CA" = .ok c9Quote :=
  ⟨by decide, by norm_num, by decide⟩

/-- Witness for `boxValidation_spec` on a one-box list with an absent weight. -/
theorem boxValidation_spec_witness :
    (validateBoxes [⟨some 100, some 100, some 100, none⟩] = none ↔
      ∀ b ∈ ([⟨some 100, some 100, some 100, none⟩] : List BoxInput),
        ¬ (numFalsy b.length ∨ numFalsy b.width ∨ numFalsy b.height ∨
          numFalsy b.weight)) ∧
    (∀ q, Named.calculateShippingForBoxes [] [] [] none [⟨1, 1, 1, 0⟩] 50 "0-99km"
      "A1A" "B2B" "CA" ≠ .ok q) :=
  ⟨(boxValidation_spec [⟨some 100, some 100, some 100, none⟩]).1,
    (boxValidation_spec [⟨some 100, some 100, some 100, none⟩]).2.2 [] [] [] none
      [⟨1, 1, 1, 0⟩] 50 "0-99km" "A1A" "B2B" "CA"
      ⟨⟨1, 1, 1, 0⟩, by decide, by decide⟩⟩

end ConcreteEvaluations7

/-! ## C8: external rate preferred, local fallback -/

/-- C8: when the external attempt fails (`externalCents = none`, covering every
failure mode the catch swallows) the response is exactly the local quote tagged
STRAPI_TABLE and no external error reaches the caller; a local error is the
only failure. When the external attempt yields a completed rate, the response
is tagged MEDUSA_API, its subtotal and total are the marked-up
(`floor(cents * 1.15) / 100`) and externally-discounted price rounded at
output, only the local quote's routing metadata is reused, and the local
pricing does not influence the price at all. -/
theorem externalRateFallback_spec (medusaSettings : Option DiscountSetting)
    (strapiResult : Except CalcError ShipmentQuote) :
    (∀ q, strapiResult = .ok q →
      respond none medusaSettings strapiResult = .ok
        { destinationPostalCode := q.destinationPostalCode
        , destinationCountry := q.destinationCountry
        , warehouseId := q.warehouseId
        , warehouseName := q.warehouseName
        , warehousePostalCode := q.warehousePostalCode
        , distanceKm := q.distanceKm
        , boxes := some q.boxes
        , subtotal := q.subtotal
        , source := "STRAPI_TABLE"
        , discountPercent := q.discountPercent
        , total := q.total
        , currency := q.currency }) ∧
    (∀ e, strapiResult = .error e →
      ∀ ext, respond ext medusaSettings strapiResult = .error e) ∧
    (∀ cents q, strapiResult = .ok q →
      ∃ resp, respond (some cents) medusaSettings strapiResult = .ok resp ∧
        resp.source = "MEDUSA_API" ∧
        resp.total = jsToFixed 3 (externalPrice cents medusaSettings).2 ∧
        resp.subtotal = resp.total ∧
        resp.boxes = none ∧
        resp.destinationPostalCode = q.destinationPostalCode ∧
        resp.warehousePostalCode = q.warehousePostalCode ∧
        resp.distanceKm = q.distanceKm) ∧
    (∀ cents : ℚ,
      (externalPrice cents none).2 = ((⌊cents * (115 / 100 : ℚ)⌋ : ℤ) : ℚ) / 100 ∧
      ∀ s : DiscountSetting, s.isDiscountEnabled = true → s.discountPercentage ≠ 0 →
        (externalPrice cents (some s)).2 =
          max 0 (((⌊cents * (115 / 100 : ℚ)⌋ : ℤ) : ℚ) / 100 -
            (((⌊cents * (115 / 100 : ℚ)⌋ : ℤ) : ℚ) / 100) * (s.discountPercentage / 100))) ∧
    (∀ (cents : ℚ) (q q2 : ShipmentQuote),
      (respond (some cents) medusaSettings (.ok q)).map ShippingResponse.total =
        (respond (some cents) medusaSettings (.ok q2)).map ShippingResponse.total) := by
  refine ⟨?_, ?_, ?_, ?_, ?_⟩
  · rintro q rfl
    rfl
  · rintro e rfl ext
    cases ext <;> rfl
  · rintro cents q rfl
    exact ⟨_, rfl, rfl, rfl, rfl, rfl, rfl, rfl, rfl⟩
  · intro cents
    refine ⟨rfl, ?_⟩
    intro s hen hnz
    rw [externalPrice]
    rw [if_pos ⟨by rw [hen], hnz⟩]
  · intro cents q q2
    rfl

/-- Witness for `externalRateFallback_spec`: a completed external rate of
10000 cents wins over the local quote. -/
theorem externalRateFallback_spec_witness :
    ∃ resp, respond (some 10000) (some ⟨true, 10⟩) (.ok c8Quote) = .ok resp ∧
      resp.source = "MEDUSA_API" ∧
      resp.total = jsToFixed 3 (externalPrice 10000 (some ⟨true, 10⟩)).2 ∧
      resp.subtotal = resp.total ∧
      resp.boxes = none ∧
      resp.destinationPostalCode = c8Quote.destinationPostalCode ∧
      resp.warehousePostalCode = c8Quote.warehousePostalCode ∧
      resp.distanceKm = c8Quote.distanceKm :=
  (externalRateFallback_spec (some ⟨true, 10⟩) (.ok c8Quote)).2.2.1 10000 c8Quote rfl

/-- If every warehouse in the remaining list with a successful distance lookup
is at least as far as the running minimum, the scan keeps its accumulator. -/
theorem closestFold_keep (calcDistance : String → Option ℚ) :
    ∀ (ws : List Warehouse) (c : Warehouse) (m : ℚ),
      (∀ w ∈ ws, w.postalCode ≠ "" →
        ∀ d, calcDistance w.postalCode = some d → m ≤ d) →
      ws.foldl (closestStep calcDistance) (c, some m) = (c, some m) := by
  intro ws
  induction ws with
  | nil => intro c m _; rfl
  | cons x xs ih =>
    intro c m h
    have hxs : ∀ w ∈ xs, w.postalCode ≠ "" →
        ∀ d, calcDistance w.postalCode = some d → m ≤ d :=
      fun w hw => h w (List.mem_cons_of_mem _ hw)
    have hstep : closestStep calcDistance (c, some m) x = (c, some m) := by
      by_cases hp : x.postalCode = ""
      · simp [closestStep, hp]
      · cases hd : calcDistance x.postalCode with
        | none => simp [closestStep, hp, hd]
        | some d =>
          have hnlt : ¬ d < m := not_lt.2 (h x (List.mem_cons_self _ _) hp d hd)
          simp [closestStep, hp, hd, hnlt]
    rw [List.foldl_cons, hstep]
    exact ih c m hxs

/-- Closest-warehouse scan, main characterization: as soon as some warehouse
in the list has a postal code and a successful distance lookup that beats the
running minimum, the fold returns the first warehouse attaining the minimum
distance; every skipped earlier candidate is strictly farther. -/
theorem closestFold_found (calcDistance : String → Option ℚ) :
    ∀ (ws : List Warehouse) (c : Warehouse) (m : Option ℚ),
      (∃ v ∈ ws, v.postalCode ≠ "" ∧ ∃ d, calcDistance v.postalCode = some d ∧
        (∀ mv, m = some mv → d < mv)) →
      ∃ l1 r l2 dr, ws = l1 ++ r :: l2 ∧ r.postalCode ≠ "" ∧
        calcDistance r.postalCode = some dr ∧
        ws.foldl (closestStep calcDistance) (c, m) = (r, some dr) ∧
        (∀ mv, m = some mv → dr < mv) ∧
        (∀ w ∈ ws, w.postalCode ≠ "" →
          ∀ d, calcDistance w.postalCode = some d → dr ≤ d) ∧
        (∀ w ∈ l1, w.postalCode ≠ "" →
          ∀ d, calcDistance w.postalCode = some d → dr < d) := by
  intro ws
  induction ws with
  | nil => rintro c m ⟨v, hv, -⟩; exact absurd hv (List.not_mem_nil v)
  | cons x xs ih =>
    rintro c m ⟨v, hv, hvp, d, hvd, hvm⟩
    by_cases hp : x.postalCode = ""
    · -- x has no postal code: skipped
      have hstep : closestStep calcDistance (c, m) x = (c, m) := by
        simp [closestStep, hp]
      have hv' : v ∈ xs := by
        rcases List.mem_cons.1 hv with h | h
        · subst h; exact absurd hp hvp
        · exact h
      obtain ⟨l1, r, l2, dr, hsplit, hrp, hrd, hfold, hrm, hmin, hl1⟩ :=
        ih c m ⟨v, hv', hvp, d, hvd, hvm⟩
      refine ⟨x :: l1, r, l2, dr, by rw [hsplit]; rfl, hrp, hrd, ?_, hrm, ?_, ?_⟩
      · rw [List.foldl_cons, hstep]; exact hfold
      · intro w hw hwp dw hdw
        rcases List.mem_cons.1 hw with h | h
        · exact absurd (h ▸ hp) (h ▸ hwp)
        · exact hmin w h hwp dw hdw
      · intro w hw hwp dw hdw
        rcases List.mem_cons.1 hw with h | h
        · exact absurd (h ▸ hp) (h ▸ hwp)
        · exact hl1 w h hwp dw hdw
    · cases hd : calcDistance x.postalCode with
      | none =>
        -- x's lookup errors: skipped
        have hstep : closestStep calcDistance (c, m) x = (c, m) := by
          simp [closestStep, hp, hd]
        have hv' : v ∈ xs := by
          rcases List.mem_cons.1 hv with h | h
          · subst h; rw [hvd] at hd; exact absurd hd (by simp)
          · exact h
        obtain ⟨l1, r, l2, dr, hsplit, hrp, hrd, hfold, hrm, hmin, hl1⟩ :=
          ih c m ⟨v, hv', hvp, d, hvd, hvm⟩
        refine ⟨x :: l1, r, l2, dr, by rw [hsplit]; rfl, hrp, hrd, ?_, hrm, ?_, ?_⟩
        · rw [List.foldl_cons, hstep]; exact hfold
        · intro w hw hwp dw hdw
          rcases List.mem_cons.1 hw with h | h
          · subst h; rw [hdw] at hd; exact absurd hd (by simp)
          · exact hmin w h hwp dw hdw
        · intro w hw hwp dw hdw
          rcases List.mem_cons.1 hw with h | h
          · subst h; rw [hdw] at hd; exact absurd hd (by simp)
          · exact hl1 w h hwp dw hdw
      | some dx =>
        -- x participates; does it improve the running minimum?
        by_cases himp : ∀ mv, m = some mv → dx < mv
        · -- x becomes the new running closest
          have hstep : closestStep calcDistance (c, m) x = (x, some dx) := by
            cases m with
            | none => simp [closestStep, hp, hd]
            | some mv => simp [closestStep, hp, hd, himp mv rfl]
          by_cases hbetter : ∃ u ∈ xs, u.postalCode ≠ "" ∧
              ∃ du, calcDistance u.postalCode = some du ∧ du < dx
          · obtain ⟨u, hu, hup, du, hud, hult⟩ := hbetter
            obtain ⟨l1, r, l2, dr, hsplit, hrp, hrd, hfold, hrm, hmin, hl1⟩ :=
              ih x (some dx) ⟨u, hu, hup, du, hud, fun mv hmv => by
                injection hmv with h; rw [← h]; exact hult⟩
            have hdrdx : dr < dx := hrm dx rfl
            refine ⟨x :: l1, r, l2, dr, by rw [hsplit]; rfl, hrp, hrd, ?_, ?_, ?_, ?_⟩
            · rw [List.foldl_cons, hstep]; exact hfold
            · intro mv hmv; exact lt_trans hdrdx (himp mv hmv)
            · intro w hw hwp dw hdw
              rcases List.mem_cons.1 hw with h | h
              · subst h; rw [hdw] at hd; injection hd with h
                rw [h]; exact le_of_lt hdrdx
              · exact hmin w h hwp dw hdw
            · intro w hw hwp dw hdw
              rcases List.mem_cons.1 hw with h | h
              · subst h; rw [hdw] at hd; injection hd with h
                rw [h]; exact hdrdx
              · exact hl1 w h hwp dw hdw
          · -- nothing in the tail improves on x
            push_neg at hbetter
            have hkeep : ∀ w ∈ xs, w.postalCode ≠ "" →
                ∀ dw, calcDistance w.postalCode = some dw → dx ≤ dw := by
              intro w hw hwp dw hdw
              exact hbetter w hw hwp dw hdw
            refine ⟨[], x, xs, dx, rfl, hp, hd, ?_, himp, ?_, by simp⟩
            · rw [List.foldl_cons, hstep]
              exact closestFold_keep calcDistance xs x dx hkeep
            · intro w hw hwp dw hdw
              rcases List.mem_cons.1 hw with h | h
              · subst h; rw [hdw] at hd; injection hd with h; rw [h]
              · exact hkeep w h hwp dw hdw
        · -- x does not beat the running minimum: skipped
          push_neg at himp
          obtain ⟨mv, hmv, hnlt⟩ := himp
          subst hmv
          have hstep : closestStep calcDistance (c, some mv) x = (c, some mv) := by
            simp [closestStep, hp, hd, not_lt.2 hnlt]
          have hv' : v ∈ xs := by
            rcases List.mem_cons.1 hv with h | h
            · subst h; rw [hvd] at hd; injection hd with h
              exact absurd (h ▸ hvm mv rfl) (not_lt.2 hnlt)
            · exact h
          obtain ⟨l1, r, l2, dr, hsplit, hrp, hrd, hfold, hrm, hmin, hl1⟩ :=
            ih c (some mv) ⟨v, hv', hvp, d, hvd, hvm⟩
          have hdrm : dr < mv := hrm mv rfl
          have hmvdx : mv ≤ dx := hnlt
          refine ⟨x :: l1, r, l2, dr, by rw [hsplit]; rfl, hrp, hrd, ?_, hrm, ?_, ?_⟩
          · rw [List.foldl_cons, hstep]; exact hfold
          · intro w hw hwp dw hdw
            rcases List.mem_cons.1 hw with h | h
            · subst h; rw [hdw] at hd; injection hd with h
              rw [h]; exact le_of_lt (lt_of_lt_of_le hdrm hmvdx)
            · exact hmin w h hwp dw hdw
          · intro w hw hwp dw hdw
            rcases List.mem_cons.1 hw with h | h
            · subst h; rw [hdw] at hd; injection hd with h
              rw [h]; exact lt_of_lt_of_le hdrm hmvdx
            · exact hl1 w h hwp dw hdw

/-- With at least two warehouses and at least one reachable candidate, the
closest-warehouse search returns the first warehouse attaining the minimum
distance to the destination. -/
theorem findClosestWarehouse_spec (calcDistance : String → String → Option ℚ)
    (dest : String) (w0 w1 : Warehouse) (rest : List Warehouse)
    (hex : ∃ v ∈ w0 :: w1 :: rest, v.postalCode ≠ "" ∧
      ∃ d, calcDistance (v.postalCode ++ " CA") (dest ++ " CA") = some d) :
    ∃ l1 r l2 dr, w0 :: w1 :: rest = l1 ++ r :: l2 ∧ r.postalCode ≠ "" ∧
      calcDistance (r.postalCode ++ " CA") (dest ++ " CA") = some dr ∧
      findClosestWarehouse (w0 :: w1 :: rest) calcDistance dest = some r ∧
      (∀ w ∈ w0 :: w1 :: rest, w.postalCode ≠ "" →
        ∀ d, calcDistance (w.postalCode ++ " CA") (dest ++ " CA") = some d → dr ≤ d) ∧
      (∀ w ∈ l1, w.postalCode ≠ "" →
        ∀ d, calcDistance (w.postalCode ++ " CA") (dest ++ " CA") = some d → dr < d) := by
  obtain ⟨v, hv, hvp, d, hvd, -⟩ : ∃ v ∈ w0 :: w1 :: rest, v.postalCode ≠ "" ∧
      ∃ d, (fun pc => calcDistance (pc ++ " CA") (dest ++ " CA")) v.postalCode = some d ∧
        (∀ mv, (none : Option ℚ) = some mv → d < mv) := by
    obtain ⟨v, hv, hvp, d, hvd⟩ := hex
    exact ⟨v, hv, hvp, d, hvd, fun mv hmv => by cases hmv⟩
  obtain ⟨l1, r, l2, dr, hsplit, hrp, hrd, hfold, -, hmin, hl1⟩ :=
    closestFold_found (fun pc => calcDistance (pc ++ " CA") (dest ++ " CA"))
      (w0 :: w1 :: rest) w0 none
      ⟨v, hv, hvp, d, hvd, fun mv hmv => by cases hmv⟩
  refine ⟨l1, r, l2, dr, hsplit, hrp, hrd, ?_, hmin, hl1⟩
  show (if (w1 :: rest : List Warehouse) = [] then some w0 else _) = some r
  rw [if_neg (by simp)]
  show some (List.foldl (closestStep fun pc => calcDistance (pc ++ " CA") (dest ++ " CA"))
    (w0, none) (w0 :: w1 :: rest)).1 = some r
  rw [hfold]

theorem originStep1_some (warehouses : List Warehouse) (id : ℤ) (w : Warehouse)
    (hid0 : id ≠ 0)
    (hfind : warehouses.find? (fun v => decide (v.documentId = id)) = some w)
    (hwp : w.postalCode ≠ "") :
    originStep1 warehouses (some id) = some w.postalCode := by
  show (if id = 0 then none
    else match warehouses.find? (fun v => decide (v.documentId = id)) with
      | some w => if w.postalCode = "" then none else some w.postalCode
      | none => none) = some w.postalCode
  rw [if_neg hid0, hfind]
  show (if w.postalCode = "" then none else some w.postalCode) = some w.postalCode
  rw [if_neg hwp]

theorem originStep1_nil (wid : Option ℤ) : originStep1 [] wid = none := by
  cases wid with
  | none => rfl
  | some id =>
    show (if id = 0 then none
      else match List.find? (fun v => decide (v.documentId = id)) ([] : List Warehouse) with
        | some w => if w.postalCode = "" then none else some w.postalCode
        | none => none) = none
    split <;> rfl

theorem Named.originStep2_some (warehouses : List Warehouse) (sc : String)
    (w : Warehouse) (rest : List Warehouse) (hsc : sc ≠ "")
    (hfil : warehouses.filter (fun v => decide (v.salesChannelId = sc)) = w :: rest) :
    Named.originStep2 warehouses (some sc) = some w.postalCode := by
  show (if sc = "" then none
    else match warehouses.filter (fun v => decide (v.salesChannelId = sc)) with
      | [] => none
      | w :: _ => some w.postalCode) = some w.postalCode
  rw [if_neg hsc, hfil]

theorem Named.originStep2_nil (sc : Option String) : Named.originStep2 [] sc = none := by
  cases sc with
  | none => rfl
  | some sc =>
    show (if sc = "" then none
      else match List.filter (fun v => decide (v.salesChannelId = sc)) ([] : List Warehouse) with
        | [] => none
        | w :: _ => some w.postalCode) = none
    split <;> rfl

theorem Named.originStep3_nil (calcDistance : String → String → Option ℚ)
    (dest : Option String) : Named.originStep3 [] calcDistance dest = none := by
  cases dest with
  | none => rfl
  | some d =>
    show (if d = "" then none
      else match findClosestWarehouse [] calcDistance d with
        | some w => some w.postalCode
        | none => none) = none
    split <;> rfl

theorem Named.getOrigin_of_step1 (warehouses : List Warehouse)
    (calcDistance : String → String → Option ℚ) (sc dest : Option String)
    (wid : Option ℤ) (pc : String) (h : originStep1 warehouses wid = some pc) :
    Named.getOriginPostalCode warehouses calcDistance sc dest wid = some pc := by
  unfold Named.getOriginPostalCode
  rw [h]

theorem Unnamed.getOrigin_of_warehouseId (warehouses : List Warehouse)
    (calcDistance : String → String → Option ℚ) (sc dest : Option String)
    (wid : Option ℤ) (pc : String) (h : originStep1 warehouses wid = some pc) :
    Unnamed.getOriginPostalCode warehouses calcDistance sc dest wid = some pc := by
  unfold Unnamed.getOriginPostalCode
  rw [h]

theorem Named.getOrigin_of_step2 (warehouses : List Warehouse)
    (calcDistance : String → String → Option ℚ) (sc dest : Option String)
    (wid : Option ℤ) (pc : String) (h1 : originStep1 warehouses wid = none)
    (h2 : Named.originStep2 warehouses sc = some pc) :
    Named.getOriginPostalCode warehouses calcDistance sc dest wid = some pc := by
  unfold Named.getOriginPostalCode
  rw [h1, h2]

theorem Named.getOrigin_of_step3 (warehouses : List Warehouse)
    (calcDistance : String → String → Option ℚ) (sc dest : Option String)
    (wid : Option ℤ) (pc : String) (h1 : originStep1 warehouses wid = none)
    (h2 : Named.originStep2 warehouses sc = none)
    (h3 : Named.originStep3 warehouses calcDistance dest = some pc) :
    Named.getOriginPostalCode warehouses calcDistance sc dest wid = some pc := by
  unfold Named.getOriginPostalCode
  rw [h1, h2, h3]

theorem Named.getOrigin_of_step4 (warehouses : List Warehouse)
    (calcDistance : String → String → Option ℚ) (sc dest : Option String)
    (wid : Option ℤ) (w : Warehouse) (rest : List Warehouse)
    (h1 : originStep1 warehouses wid = none)
    (h2 : Named.originStep2 warehouses sc = none)
    (h3 : Named.originStep3 warehouses calcDistance dest = none)
    (h4 : warehouses = w :: rest) :
    Named.getOriginPostalCode warehouses calcDistance sc dest wid = some w.postalCode := by
  unfold Named.getOriginPostalCode
  rw [h1, h2, h3, h4]

theorem Named.getOrigin_ne_none (warehouses : List Warehouse)
    (calcDistance : String → String → Option ℚ) (sc dest : Option String)
    (wid : Option ℤ) (w : Warehouse) (rest : List Warehouse)
    (h : warehouses = w :: rest) :
    Named.getOriginPostalCode warehouses calcDistance sc dest wid ≠ none := by
  unfold Named.getOriginPostalCode
  cases originStep1 warehouses wid <;>
    cases Named.originStep2 warehouses sc <;>
      cases Named.originStep3 warehouses calcDistance dest <;> simp [h]

theorem Named.getOrigin_nil (calcDistance : String → String → Option ℚ)
    (sc dest : Option String) (wid : Option ℤ) :
    Named.getOriginPostalCode [] calcDistance sc dest wid = none := by
  unfold Named.getOriginPostalCode
  rw [originStep1_nil, Named.originStep2_nil, Named.originStep3_nil]

theorem Named.originStep3_some (warehouses : List Warehouse)
    (calcDistance : String → String → Option ℚ) (d : String) (r : Warehouse)
    (hd : d ≠ "") (hfc : findClosestWarehouse warehouses calcDistance d = some r) :
    Named.originStep3 warehouses calcDistance (some d) = some r.postalCode := by
  show (if d = "" then none
    else match findClosestWarehouse warehouses calcDistance d with
      | some w => some w.postalCode
      | none => none) = some r.postalCode
  rw [if_neg hd, hfc]

/-- **C7** (amended): origin resolution follows the priority chain.  (1) A
truthy warehouse id whose lookup has a postal code wins, in both services.
For the named service: (2) otherwise the first sales-channel match's postal
code; (3) otherwise, with a truthy destination, a single warehouse is used
outright, and with two or more the first warehouse attaining the minimum
successfully computed distance (lookup errors and missing postal codes
skipped); (4) otherwise the first warehouse; (5) an error exactly when no
warehouses exist.  (6) The unnamed copy additionally requires a truthy postal
code at the later steps and can therefore error with warehouses present. -/
theorem getOriginPostalCode_priority (warehouses : List Warehouse)
    (calcDistance : String → String → Option ℚ)
    (salesChannelId destinationPostalCode : Option String) (warehouseId : Option ℤ) :
    (∀ id w, warehouseId = some id → id ≠ 0 →
      warehouses.find? (fun v => decide (v.documentId = id)) = some w →
      w.postalCode ≠ "" →
      Named.getOriginPostalCode warehouses calcDistance salesChannelId
        destinationPostalCode warehouseId = some w.postalCode ∧
      Unnamed.getOriginPostalCode warehouses calcDistance salesChannelId
        destinationPostalCode warehouseId = some w.postalCode) ∧
    (originStep1 warehouses warehouseId = none →
      ∀ sc, salesChannelId = some sc → sc ≠ "" →
      ∀ w rest, warehouses.filter (fun v => decide (v.salesChannelId = sc)) = w :: rest →
      Named.getOriginPostalCode warehouses calcDistance salesChannelId
        destinationPostalCode warehouseId = some w.postalCode) ∧
    (originStep1 warehouses warehouseId = none →
      Named.originStep2 warehouses salesChannelId = none →
      ∀ dest, destinationPostalCode = some dest → dest ≠ "" →
      (∀ w, warehouses = [w] →
        Named.getOriginPostalCode warehouses calcDistance salesChannelId
          destinationPostalCode warehouseId = some w.postalCode) ∧
      (∀ w0 w1 rest, warehouses = w0 :: w1 :: rest →
        (∃ v ∈ warehouses, v.postalCode ≠ "" ∧
          ∃ d, calcDistance (v.postalCode ++ " CA") (dest ++ " CA") = some d) →
        ∃ l1 r l2 dr, warehouses = l1 ++ r :: l2 ∧ r.postalCode ≠ "" ∧
          calcDistance (r.postalCode ++ " CA") (dest ++ " CA") = some dr ∧
          Named.getOriginPostalCode warehouses calcDistance salesChannelId
            destinationPostalCode warehouseId = some r.postalCode ∧
          (∀ w ∈ warehouses, w.postalCode ≠ "" →
            ∀ d, calcDistance (w.postalCode ++ " CA") (dest ++ " CA") = some d → dr ≤ d) ∧
          (∀ w ∈ l1, w.postalCode ≠ "" →
            ∀ d, calcDistance (w.postalCode ++ " CA") (dest ++ " CA") = some d → dr < d))) ∧
    (originStep1 warehouses warehouseId = none →
      Named.originStep2 warehouses salesChannelId = none →
      Named.originStep3 warehouses calcDistance destinationPostalCode = none →
      ∀ w rest, warehouses = w :: rest →
      Named.getOriginPostalCode warehouses calcDistance salesChannelId
        destinationPostalCode warehouseId = some w.postalCode) ∧
    (Named.getOriginPostalCode warehouses calcDistance salesChannelId
      destinationPostalCode warehouseId = none ↔ warehouses = []) ∧
    (warehouseId = none → salesChannelId = none → destinationPostalCode = none →
      ∀ w rest, warehouses = w :: rest → w.postalCode = "" →
      Unnamed.getOriginPostalCode warehouses calcDistance salesChannelId
        destinationPostalCode warehouseId = none) := by
  refine ⟨?_, ?_, ?_, ?_, ?_, ?_⟩
  · intro id w hid hid0 hfind hwp
    subst hid
    have h1 := originStep1_some warehouses id w hid0 hfind hwp
    exact ⟨Named.getOrigin_of_step1 _ _ _ _ _ _ h1,
      Unnamed.getOrigin_of_warehouseId _ _ _ _ _ _ h1⟩
  · intro h1 sc hsc hsc0 w rest hfil
    subst hsc
    exact Named.getOrigin_of_step2 _ _ _ _ _ _ h1
      (Named.originStep2_some warehouses sc w rest hsc0 hfil)
  · intro h1 h2 dest hdest hdest0
    subst hdest
    constructor
    · intro w hw
      subst hw
      exact Named.getOrigin_of_step3 _ _ _ _ _ _ h1 h2
        (Named.originStep3_some _ _ _ _ hdest0 rfl)
    · intro w0 w1 rest hws hex
      subst hws
      obtain ⟨l1, r, l2, dr, hsplit, hrp, hrd, hfc, hmin, hl1⟩ :=
        findClosestWarehouse_spec calcDistance dest w0 w1 rest hex
      exact ⟨l1, r, l2, dr, hsplit, hrp, hrd,
        Named.getOrigin_of_step3 _ _ _ _ _ _ h1 h2
          (Named.originStep3_some _ _ _ _ hdest0 hfc), hmin, hl1⟩
  · intro h1 h2 h3 w rest hws
    exact Named.getOrigin_of_step4 _ _ _ _ _ _ _ h1 h2 h3 hws
  · constructor
    · intro hnone
      cases hws : warehouses with
      | nil => rfl
      | cons w rest =>
        exact absurd hnone
          (Named.getOrigin_ne_none warehouses calcDistance salesChannelId
            destinationPostalCode warehouseId w rest hws)
    · intro hws
      subst hws
      exact Named.getOrigin_nil calcDistance salesChannelId destinationPostalCode warehouseId
  · intro hwid hsc hdest w rest hws hwp
    subst hwid; subst hsc; subst hdest; subst hws
    unfold Unnamed.getOriginPostalCode
    show (if w.postalCode = "" then none else some w.postalCode) = none
    rw [if_pos hwp]

/-- Counterexample to C7 as stated: the unnamed copy throws its
no-warehouses error even though a warehouse exists, because the surviving
warehouse has no postal code; the named service returns that (empty) postal
code, so the "error only when no warehouses exist at all" clause holds only
for the named service. -/
theorem getOriginPostalCode_throw_cex :
    Unnamed.getOriginPostalCode [⟨1, "W1", "", ""⟩] (fun _ _ => none)
      none none none = none ∧
    ([(⟨1, "W1", "", ""⟩ : Warehouse)] ≠ []) ∧
    Named.getOriginPostalCode [⟨1, "W1", "", ""⟩] (fun _ _ => none)
      none none none = some "" := by
  refine ⟨by decide, by decide, by decide⟩

theorem getOriginPostalCode_priority_witness :
    Named.getOriginPostalCode
      [⟨1, "A", "11111", "chA"⟩, ⟨2, "B", "22222", "chB"⟩]
      (fun _ _ => none) none none (some 2) = some "22222" ∧
    Unnamed.getOriginPostalCode
      [⟨1, "A", "11111", "chA"⟩, ⟨2, "B", "22222", "chB"⟩]
      (fun _ _ => none) none none (some 2) = some "22222" := by
  have h := (getOriginPostalCode_priority
      [⟨1, "A", "11111", "chA"⟩, ⟨2, "B", "22222", "chB"⟩]
      (fun _ _ => none) none none (some 2)).1
      2 ⟨2, "B", "22222", "chB"⟩ rfl (by decide) (by decide) (by decide)
  exact h

theorem mmToInches_eq_zero (x : ℚ) : Named.mmToInches x = 0 ↔ x = 0 := by
  rw [Named.mmToInches, mul_eq_zero]
  simp

theorem gramsToPounds_eq_zero (x : ℚ) : Named.gramsToPounds x = 0 ↔ x = 0 := by
  rw [Named.gramsToPounds, mul_eq_zero]
  simp

theorem gramsToPounds_nonpos (x : ℚ) : Named.gramsToPounds x ≤ 0 ↔ x ≤ 0 := by
  rw [Named.gramsToPounds]
  constructor <;> intro h <;> nlinarith

theorem calculateCubicFeet_convert (l w h : ℚ) :
    Unnamed.calculateCubicFeet (Named.mmToInches l) (Named.mmToInches w)
      (Named.mmToInches h) = Named.calculateCubicFeet l w h := rfl

theorem calculateDensity_convert (l w h g : ℚ) :
    Unnamed.calculateDensity (Named.mmToInches l) (Named.mmToInches w)
      (Named.mmToInches h) (Named.gramsToPounds g) =
      Named.calculateDensity l w h g := by
  rw [Unnamed.calculateDensity, Named.calculateDensity]
  by_cases hg : g ≤ 0
  · rw [if_pos ((gramsToPounds_nonpos g).2 hg), if_pos hg]
  · rw [if_neg (fun hc => hg ((gramsToPounds_nonpos g).1 hc)), if_neg hg,
      calculateCubicFeet_convert]

theorem Named.processBox_eq_convert (ct : List DensityClassRow) (pt : List PricingRow)
    (dk : ℚ) (dr : String) (b : Box) :
    Named.processBox ct pt dk dr b = Unnamed.processBox ct pt dk dr (convertBox b) := by
  have hc : ((convertBox b).length = 0 ∨ (convertBox b).width = 0 ∨
      (convertBox b).height = 0 ∨ (convertBox b).weight = 0) ↔
      (b.length = 0 ∨ b.width = 0 ∨ b.height = 0 ∨ b.weight = 0) := by
    simp only [convertBox, mmToInches_eq_zero, gramsToPounds_eq_zero]
  simp only [Named.processBox, Unnamed.processBox, convertBox]
  by_cases h : b.length = 0 ∨ b.width = 0 ∨ b.height = 0 ∨ b.weight = 0
  · rw [if_pos h, if_pos (by simpa only [convertBox] using hc.2 h)]
  · rw [if_neg h, if_neg (by simpa only [convertBox] using fun hcc => h (hc.1 hcc))]
    rw [calculateDensity_convert, calculateCubicFeet_convert]
    cases hf : findFreightClassByDensity ct
        (Named.calculateDensity b.length b.width b.height b.weight) with
    | none => rfl
    | some fc =>
      by_cases hz : fc = 0
      · simp [hz]
      · simp only [hz, if_neg hz]
        rw [resolvePrice_eq]

theorem Named.processBoxes_eq_convert (ct : List DensityClassRow) (pt : List PricingRow)
    (dk : ℚ) (dr : String) : ∀ boxes : List Box,
    Named.processBoxes ct pt dk dr boxes =
      Unnamed.processBoxes ct pt dk dr (boxes.map convertBox) := by
  intro boxes
  induction boxes with
  | nil => rfl
  | cons b bs ih =>
    show (match Named.processBox ct pt dk dr b with
      | Except.error e => Except.error e
      | Except.ok (q, p) =>
        match Named.processBoxes ct pt dk dr bs with
        | Except.error e => Except.error e
        | Except.ok (qs, s) => Except.ok (q :: qs, p + s)) = _
    rw [Named.processBox_eq_convert, ih]
    rfl

theorem Named.calculateShippingForBoxes_eq_convert (ct : List DensityClassRow)
    (pt : List PricingRow) (warehouses : List Warehouse)
    (settings : Option DiscountSetting) (boxes : List Box) (dk : ℚ)
    (dr o p c : String) :
    Named.calculateShippingForBoxes ct pt warehouses settings boxes dk dr o p c =
      Unnamed.calculateShippingForBoxes ct pt warehouses settings
        (boxes.map convertBox) dk dr o p c := by
  rw [Named.calculateShippingForBoxes, Unnamed.calculateShippingForBoxes,
    Named.processBoxes_eq_convert]

/-- Off the ten 1 km gaps the two banding functions agree. -/
theorem mapDistanceToRange_agree (d : ℚ) (h0 : 0 ≤ d)
    (hgap : ∀ p ∈ specBuckets, ¬ (p.1 + 99 ≤ d ∧ d < p.1 + 100)) :
    Named.mapDistanceToRange d = Unnamed.mapDistanceToRange d := by
  rcases lt_or_le d 1000 with hd | hd
  · obtain ⟨p, hp, hname, hlo, hhi⟩ := Named.mapDistanceToRange_covers d h0 hd
    have hlt : d < p.1 + 99 := by
      by_contra hge
      exact hgap p hp ⟨not_lt.1 hge, hhi⟩
    rw [hname, Unnamed.mapDistanceToRange_bucket99 d p hp hlo hlt]
  · rw [(Named.mapDistanceToRange_top_iff d).2 hd,
      (Unnamed.mapDistanceToRange_top_iff_gaps d h0).2 (Or.inl hd)]

/-- **C10** (amended): the two services do not compute the same function of the
raw box values; rather, the named service equals the unnamed copy composed
with the mm→in / g→lb unit conversion of each box, and the two distance
banding functions agree exactly away from the unnamed loop's ten 1 km gaps. -/
theorem serviceEquivalence_spec :
    (∀ (classTable : List DensityClassRow) (priceTable : List PricingRow)
      (warehouses : List Warehouse) (settings : Option DiscountSetting)
      (boxes : List Box) (distanceKm : ℚ)
      (distanceRange originPostalCode destinationPostalCode destinationCountry : String),
      Named.calculateShippingForBoxes classTable priceTable warehouses settings boxes
          distanceKm distanceRange originPostalCode destinationPostalCode
          destinationCountry =
        Unnamed.calculateShippingForBoxes classTable priceTable warehouses settings
          (boxes.map convertBox) distanceKm distanceRange originPostalCode
          destinationPostalCode destinationCountry) ∧
    (∀ d : ℚ, 0 ≤ d → (∀ p ∈ specBuckets, ¬ (p.1 + 99 ≤ d ∧ d < p.1 + 100)) →
      Named.mapDistanceToRange d = Unnamed.mapDistanceToRange d) :=
  ⟨Named.calculateShippingForBoxes_eq_convert, mapDistanceToRange_agree⟩

section ConcreteEvaluations8

attribute [local semireducible] Rat.add Rat.mul Rat.sub Rat.inv

/-- Counterexample to C10 as stated: on identical raw inputs the two services
disagree — the named service converts the box from mm/g, so the quoted box
weight (and density) differ — and the two banding functions disagree at 99 km. -/
theorem serviceEquivalence_cex :
    (Named.calculateShippingForBoxes [⟨1, "96 but less than 104", 70⟩]
        [⟨70, "200-299km", some 0, 77⟩] [] none [⟨12, 12, 12, 100⟩] 250
        "200-299km" "O" "D" "CA" ≠
      Unnamed.calculateShippingForBoxes [⟨1, "96 but less than 104", 70⟩]
        [⟨70, "200-299km", some 0, 77⟩] [] none [⟨12, 12, 12, 100⟩] 250
        "200-299km" "O" "D" "CA") ∧
    Named.mapDistanceToRange 99 ≠ Unnamed.mapDistanceToRange 99 := by
  refine ⟨by decide, by decide⟩

theorem serviceEquivalence_spec_witness :
    (Named.calculateShippingForBoxes [⟨1, "96 but less than 104", 70⟩]
        [⟨70, "200-299km", some 0, 77⟩] [] none [⟨12, 12, 12, 100⟩] 250
        "200-299km" "O" "D" "CA" =
      Unnamed.calculateShippingForBoxes [⟨1, "96 but less than 104", 70⟩]
        [⟨70, "200-299km", some 0, 77⟩] [] none
        ([⟨12, 12, 12, 100⟩].map convertBox) 250 "200-299km" "O" "D" "CA") ∧
    Named.mapDistanceToRange 250 = Unnamed.mapDistanceToRange 250 :=
  ⟨serviceEquivalence_spec.1 [⟨1, "96 but less than 104", 70⟩]
      [⟨70, "200-299km", some 0, 77⟩] [] none [⟨12, 12, 12, 100⟩] 250
      "200-299km" "O" "D" "CA",
    serviceEquivalence_spec.2 250 (by decide) (by decide)⟩

end ConcreteEvaluations8
